import Mathlib

/-!
Verification of the cytra-gb GameBoy emulator core.

Shallow embedding of the Rust sources under `src/wasm/gb/src/` and proofs
about the claims of the specification.

Conventions of the embedding:
* Machine integers (`u8`, `u16`, `u32`, `usize`) are modelled as `Nat`;
  wrapping arithmetic is written with an explicit `% 256` / `% 65536`,
  bitwise operations with `&&&`, `|||`, `^^^`; the `u8` bitwise
  complement `!v` is `v ^^^ 0xff`.
* Rust byte buffers (`Vec<u8>`, `[u8; N]`) are modelled by `ByteVec`:
  a length together with the little-endian base-256 payload encoded as a
  single `Nat`.  `ByteVec.get?` mirrors the fallible `slice::get`;
  in-bounds indexing `buf[i]` is `ByteVec.get` and in-bounds stores are
  `ByteVec.set` (which leaves the vector unchanged out of bounds, the
  way all stores in the source are reached only under a bounds guard).
* `&mut self` methods become state-passing functions returning the new
  state (paired with the return value where there is one).
* The `while` loop of `run_frame` is modelled with an explicit fuel
  parameter (`none` = fuel exhausted before the frame budget was met).
-/

/-- Byte vector: a length plus the little-endian base-256 payload. -/
structure ByteVec where
  size : Nat
  data : Nat
deriving DecidableEq, Repr

/-- `slice::get(i)` — `some` byte if `i` is in bounds, else `none`. -/
def ByteVec.get? (a : ByteVec) (i : Nat) : Option Nat :=
  if i < a.size then some ((a.data >>> (8 * i)) % 256) else none

/-- In-bounds indexing `a[i]` (0 out of bounds). -/
def ByteVec.get (a : ByteVec) (i : Nat) : Nat := (a.get? i).getD 0

/-- `a[i] = v` for an in-bounds index; out of bounds leaves `a` unchanged
(every store in the source is guarded by a bounds check). -/
def ByteVec.set (a : ByteVec) (i v : Nat) : ByteVec :=
  if i < a.size then
    ⟨a.size, a.data % (1 <<< (8 * i)) + (v % 256) * (1 <<< (8 * i))
      + (a.data >>> (8 * (i + 1))) * (1 <<< (8 * (i + 1)))⟩
  else a

/-- A `ByteVec` of `n` zero bytes (`vec![0; n]`). -/
def ByteVec.zeros (n : Nat) : ByteVec := ⟨n, 0⟩

/-- Sign extension of a byte: `(v as i8) as u16` for `v < 256`. -/
def signExt8 (v : Nat) : Nat := if 128 ≤ v then 0xff00 + v else v

/-- Generic bounded iteration of a state transformer (used to express
the source's counted `while`/`for` loops). -/
def iterState {α : Type} (f : α → α) : Nat → α → α
  | 0, a => a
  | n + 1, a => iterState f n (f a)

/-! ## Registers (`registers.rs`) -/

/-- CPU registers (Sharp LR35902), `registers.rs`. -/
structure Registers where
  a : Nat
  b : Nat
  c : Nat
  d : Nat
  e : Nat
  h : Nat
  l : Nat
  f : Nat
  sp : Nat
  pc : Nat
deriving DecidableEq, Repr

namespace Registers

/-- Power-on register values (`Registers::new`). -/
def new : Registers :=
  { a := 0x01, b := 0x00, c := 0x13, d := 0x00, e := 0xd8
    h := 0x01, l := 0x4d, f := 0xb0, sp := 0xfffe, pc := 0x0100 }

def flag_z (r : Registers) : Bool := r.f &&& 0x80 ≠ 0
def set_flag_z (r : Registers) (v : Bool) : Registers :=
  { r with f := if v then r.f ||| 0x80 else r.f &&& 0x7f }

def flag_n (r : Registers) : Bool := r.f &&& 0x40 ≠ 0
def set_flag_n (r : Registers) (v : Bool) : Registers :=
  { r with f := if v then r.f ||| 0x40 else r.f &&& 0xbf }

def flag_h (r : Registers) : Bool := r.f &&& 0x20 ≠ 0
def set_flag_h (r : Registers) (v : Bool) : Registers :=
  { r with f := if v then r.f ||| 0x20 else r.f &&& 0xdf }

def flag_c (r : Registers) : Bool := r.f &&& 0x10 ≠ 0
def set_flag_c (r : Registers) (v : Bool) : Registers :=
  { r with f := if v then r.f ||| 0x10 else r.f &&& 0xef }

def af (r : Registers) : Nat := (r.a <<< 8) ||| r.f
def set_af (r : Registers) (v : Nat) : Registers :=
  { r with a := (v >>> 8) % 256, f := v &&& 0xf0 }

def bc (r : Registers) : Nat := (r.b <<< 8) ||| r.c
def set_bc (r : Registers) (v : Nat) : Registers :=
  { r with b := (v >>> 8) % 256, c := v % 256 }

def de (r : Registers) : Nat := (r.d <<< 8) ||| r.e
def set_de (r : Registers) (v : Nat) : Registers :=
  { r with d := (v >>> 8) % 256, e := v % 256 }

def hl (r : Registers) : Nat := (r.h <<< 8) ||| r.l
def set_hl (r : Registers) (v : Nat) : Registers :=
  { r with h := (v >>> 8) % 256, l := v % 256 }

end Registers

/-! ## Timer (`timer.rs`) -/

/-- Timer state, `timer.rs`. -/
structure Timer where
  div_counter : Nat
  tima_counter : Nat
deriving DecidableEq, Repr

namespace Timer

def new : Timer := ⟨0, 0⟩

/-- `Timer::step(cycles, io)`: advance DIV and (when enabled) TIMA;
returns the new timer state and the updated I/O block. -/
def step (t : Timer) (cycles : Nat) (io : ByteVec) : Timer × ByteVec :=
  -- DIV @16384Hz
  let div_counter := t.div_counter + cycles
  let (div_counter, io) :=
    if div_counter ≥ 256 then
      (div_counter - 256, io.set 0x04 ((io.get 0x04 + 1) % 256))
    else (div_counter, io)
  -- TIMA if enabled
  let tac := io.get 0x07
  if tac &&& 0x04 ≠ 0 then
    let frequency := [1024, 16, 64, 256].getD (tac &&& 0x03) 0
    let tima_counter := t.tima_counter + cycles
    if tima_counter ≥ frequency then
      let tima_counter := tima_counter - frequency
      let tima := io.get 0x05
      if tima = 0xff then
        -- Overflow -> timer interrupt
        let tma := io.get 0x06
        let io := io.set 0x05 tma
        let io := io.set 0x0f (io.get 0x0f ||| 0x04)
        (⟨div_counter, tima_counter⟩, io)
      else
        (⟨div_counter, tima_counter⟩, io.set 0x05 ((tima + 1) % 256))
    else (⟨div_counter, tima_counter⟩, io)
  else (⟨div_counter, t.tima_counter⟩, io)

end Timer

/-! ## Input (`input.rs`) -/

/-- Input latch state, `input.rs` (active-low button bitmask). -/
structure Input where
  buttons : Nat
deriving DecidableEq, Repr

namespace Input

def new : Input := ⟨0xff⟩

def press_button (s : Input) (button : Nat) : Input :=
  ⟨s.buttons &&& ((1 <<< button) ^^^ 0xff)⟩

def release_button (s : Input) (button : Nat) : Input :=
  ⟨s.buttons ||| (1 <<< button)⟩

end Input

/-! ## APU (`apu.rs`) -/

/-- APU state, `apu.rs` (timing only). -/
structure APU where
  accum_cycles : Nat
deriving DecidableEq, Repr

namespace APU

def new : APU := ⟨0⟩

/-- `APU::step` (the NR52 read has no effect on the state). -/
def step (a : APU) (cycles : Nat) : APU :=
  let accum := (a.accum_cycles + cycles) % (2 ^ 32)
  if accum > (1 <<< 20) then ⟨accum &&& ((1 <<< 20) - 1)⟩ else ⟨accum⟩

end APU

/-! ## MMU (`mmu.rs`) -/

/-- MMU state, `mmu.rs`: memory map, banking, I/O. -/
structure MMU where
  rom : ByteVec
  vram : ByteVec
  eram : ByteVec
  wram : ByteVec
  oam : ByteVec
  io : ByteVec
  hram : ByteVec
  ie : Nat
  rom_bank : Nat
  ram_bank : Nat
  ram_enabled : Bool
  mbc_type : Nat
  banking_mode : Nat
  is_gbc : Bool
  vram_bank : Nat
  wram_bank : Nat
  vram_banks : List ByteVec
  wram_banks : List ByteVec
  cgb_bg_palette_data : ByteVec
  cgb_obj_palette_data : ByteVec
  bgpi : Nat
  obpi : Nat
  hdma_active : Bool
  hdma_hblank_mode : Bool
  hdma_src : Nat
  hdma_dst : Nat
  hdma_remaining : Nat
  joypad_buttons : Nat
deriving DecidableEq, Repr

namespace MMU

/-- `MMU::read_io` for `0xff00 ≤ addr ≤ 0xff7f`. -/
def read_io (m : MMU) (addr : Nat) : Nat :=
  let offset := addr - 0xff00
  if offset = 0x00 then
    -- JOYP read is dynamic based on select lines and current button state
    let joyp := m.io.get 0x00
    let value := 0xC0 ||| (joyp &&& 0x30) ||| 0x0F
    let value :=
      if joyp &&& 0x10 = 0 then value &&& (((m.joypad_buttons >>> 4) &&& 0x0F) ^^^ 0xff)
      else value
    let value :=
      if joyp &&& 0x20 = 0 then value &&& ((m.joypad_buttons &&& 0x0F) ^^^ 0xff)
      else value
    value
  else if m.is_gbc ∧ offset = 0x4f then m.vram_bank ||| 0xfe
  else if m.is_gbc ∧ offset = 0x70 then m.wram_bank ||| 0xf8
  else if m.is_gbc ∧ offset = 0x68 then m.bgpi
  else if m.is_gbc ∧ offset = 0x69 then m.cgb_bg_palette_data.get (m.bgpi &&& 0x3f)
  else if m.is_gbc ∧ offset = 0x6a then m.obpi
  else if m.is_gbc ∧ offset = 0x6b then m.cgb_obj_palette_data.get (m.obpi &&& 0x3f)
  else if m.is_gbc ∧ offset = 0x51 then (m.hdma_src >>> 8) % 256
  else if m.is_gbc ∧ offset = 0x52 then (m.hdma_src &&& 0x00ff) &&& 0xF0
  else if m.is_gbc ∧ offset = 0x53 then ((m.hdma_dst >>> 8) % 256) &&& 0x1F
  else if m.is_gbc ∧ offset = 0x54 then (m.hdma_dst &&& 0x00ff) &&& 0xF0
  else if m.is_gbc ∧ offset = 0x55 then
    if m.hdma_active then
      let blocks := (m.hdma_remaining + 15) / 16
      0x80 ||| ((blocks - 1) &&& 0x7f)
    else 0xff
  else m.io.get offset

/-- `MMU::read_byte`.  The source handles the echo region
`0xe000..=0xfdff` by a recursive call at `addr - 0x2000`; that address
always lands in the work-RAM window `0xc000..=0xdfff`, so the recursion
is inlined here as the corresponding work-RAM read (keeping the
definition structurally recursion-free). -/
def readByte (m : MMU) (addr : Nat) : Nat :=
  if addr ≤ 0x3fff then (m.rom.get? addr).getD 0
  else if addr ≤ 0x7fff then (m.rom.get? (m.rom_bank * 0x4000 + (addr - 0x4000))).getD 0
  else if addr ≤ 0x9fff then
    let offset := addr - 0x8000
    if m.is_gbc ∧ m.vram_bank < 2 then
      (((m.vram_banks.getD m.vram_bank (ByteVec.zeros 0)).get? offset)).getD 0
    else if offset < m.vram.size then m.vram.get offset
    else 0
  else if addr ≤ 0xbfff then
    if m.ram_enabled then (m.eram.get? (m.ram_bank * 0x2000 + (addr - 0xa000))).getD 0
    else 0xff
  else if addr ≤ 0xcfff then (m.wram.get? (addr - 0xc000)).getD 0
  else if addr ≤ 0xdfff then
    let offset := addr - 0xd000
    if m.is_gbc ∧ m.wram_bank < 8 then
      ((m.wram_banks.getD m.wram_bank (ByteVec.zeros 0)).get? offset).getD 0
    else if offset < m.wram.size then m.wram.get offset
    else 0
  else if addr ≤ 0xfdff then
    -- echo: `self.read_byte(addr - 0x2000)`, inlined (target is 0xc000..=0xddff)
    let addr2 := addr - 0x2000
    if addr2 ≤ 0xcfff then (m.wram.get? (addr2 - 0xc000)).getD 0
    else
      let offset := addr2 - 0xd000
      if m.is_gbc ∧ m.wram_bank < 8 then
        ((m.wram_banks.getD m.wram_bank (ByteVec.zeros 0)).get? offset).getD 0
      else if offset < m.wram.size then m.wram.get offset
      else 0
  else if addr ≤ 0xfe9f then
    let offset := addr - 0xfe00
    if offset < m.oam.size then m.oam.get offset else 0xff
  else if addr ≤ 0xfeff then 0xff
  else if addr ≤ 0xff7f then m.read_io addr
  else if addr ≤ 0xfffe then
    let offset := addr - 0xff80
    if offset < m.hram.size then m.hram.get offset else 0xff
  else if addr = 0xffff then m.ie
  else 0xff

/-- The loop of `MMU::dma_transfer`: `oam[i] = read_byte(src + i)` for
`i` in `0..0xa0`; `n` counts the remaining iterations. -/
def dmaLoop (src : Nat) : Nat → MMU → MMU
  | 0, m => m
  | n + 1, m =>
    let i := 0xa0 - (n + 1)
    dmaLoop src n { m with oam := m.oam.set i (m.readByte (src + i)) }

/-- `MMU::dma_transfer(val)`. -/
def dma_transfer (m : MMU) (val : Nat) : MMU :=
  dmaLoop (val <<< 8) 0xa0 m

/-- One iteration of the `MMU::do_hdma_copy` loop body. -/
def hdmaStep (m : MMU) : MMU :=
  let byte := m.readByte m.hdma_src
  let dst_off := m.hdma_dst - 0x8000
  let m :=
    if dst_off < 0x2000 then
      if m.is_gbc ∧ m.vram_bank < 2 then
        let bank := (m.vram_banks.getD m.vram_bank (ByteVec.zeros 0)).set dst_off byte
        { m with vram_banks := m.vram_banks.set m.vram_bank bank }
      else
        if dst_off < m.vram.size then { m with vram := m.vram.set dst_off byte } else m
    else m
  { m with hdma_src := (m.hdma_src + 1) % 65536,
           hdma_dst := (m.hdma_dst + 1) % 65536,
           hdma_remaining := m.hdma_remaining - 1 }

/-- The `while len > 0` loop of `MMU::do_hdma_copy`: `len` iterations
of `hdmaStep`. -/
def doHdmaCopy (len : Nat) (m : MMU) : MMU := iterState hdmaStep len m

/-- `MMU::write_io` for `0xff00 ≤ addr ≤ 0xff7f`. -/
def write_io (m : MMU) (addr val : Nat) : MMU :=
  let offset := addr - 0xff00
  if offset = 0x00 then
    -- JOYP: only bits 4-5 (select lines) are writable
    let prev := m.io.get 0x00
    { m with io := m.io.set 0x00 ((prev &&& 0xCF) ||| (val &&& 0x30)) }
  else if offset = 0x04 then { m with io := m.io.set offset 0 }
  else if offset = 0x41 then
    { m with io := m.io.set offset ((m.io.get offset &&& 0x07) ||| (val &&& 0xf8)) }
  else if offset = 0x44 then m
  else if offset = 0x46 then
    let m := m.dma_transfer val
    { m with io := m.io.set offset val }
  else if m.is_gbc ∧ offset = 0x4f then { m with vram_bank := val &&& 0x01 }
  else if m.is_gbc ∧ offset = 0x70 then
    let bank := val &&& 0x07
    { m with wram_bank := if bank = 0 then 1 else bank }
  else if m.is_gbc ∧ offset = 0x51 then
    { m with hdma_src := (m.hdma_src &&& 0x00ff) ||| ((val % 256) <<< 8) }
  else if m.is_gbc ∧ offset = 0x52 then
    { m with hdma_src := (m.hdma_src &&& 0xff00) ||| (val &&& 0xF0) }
  else if m.is_gbc ∧ offset = 0x53 then
    { m with hdma_dst := (m.hdma_dst &&& 0x00ff) ||| (((val &&& 0x1F) ||| 0x80) <<< 8) }
  else if m.is_gbc ∧ offset = 0x54 then
    { m with hdma_dst := (m.hdma_dst &&& 0xff00) ||| (val &&& 0xF0) }
  else if m.is_gbc ∧ offset = 0x68 then { m with bgpi := val &&& 0xbf }
  else if m.is_gbc ∧ offset = 0x69 then
    let idx := m.bgpi &&& 0x3f
    let m := { m with cgb_bg_palette_data := m.cgb_bg_palette_data.set idx val }
    if m.bgpi &&& 0x80 ≠ 0 then
      { m with bgpi := (m.bgpi &&& 0x80) ||| ((m.bgpi + 1) % 256 &&& 0x3f) }
    else m
  else if m.is_gbc ∧ offset = 0x6a then { m with obpi := val &&& 0xbf }
  else if m.is_gbc ∧ offset = 0x6b then
    let idx := m.obpi &&& 0x3f
    let m := { m with cgb_obj_palette_data := m.cgb_obj_palette_data.set idx val }
    if m.obpi &&& 0x80 ≠ 0 then
      { m with obpi := (m.obpi &&& 0x80) ||| ((m.obpi + 1) % 256 &&& 0x3f) }
    else m
  else if m.is_gbc ∧ offset = 0x55 then
    -- Length is (val & 0x7F) + 1 blocks of 16 bytes
    let blocks := (val &&& 0x7f) + 1
    let length := blocks * 16
    if val &&& 0x80 = 0 then
      -- General DMA: copy all at once
      let m := doHdmaCopy length { m with hdma_active := false }
      { m with io := m.io.set 0x55 0xff }
    else
      -- HBlank DMA: start / update
      { m with hdma_active := true, hdma_hblank_mode := true, hdma_remaining := length,
               io := m.io.set 0x55 (0x80 ||| ((blocks - 1) &&& 0x7f)) }
  else { m with io := m.io.set offset (val % 256) }

/-- `MMU::write_byte`.  The echo-region recursion of the source
(`self.write_byte(addr - 0x2000, val)`) always lands in the work-RAM
window and is inlined as the corresponding work-RAM write. -/
def writeByte (m : MMU) (addr val : Nat) : MMU :=
  if addr ≤ 0x1fff then { m with ram_enabled := val &&& 0x0f = 0x0a }
  else if addr ≤ 0x3fff then
    let bank := val &&& 0x1f
    let bank := if bank = 0 then 1 else bank
    { m with rom_bank := (m.rom_bank &&& 0x60) ||| bank }
  else if addr ≤ 0x5fff then
    if m.banking_mode = 0 then
      { m with rom_bank := (m.rom_bank &&& 0x1f) ||| ((val &&& 0x03) <<< 5) }
    else { m with ram_bank := val &&& 0x03 }
  else if addr ≤ 0x7fff then { m with banking_mode := val &&& 0x01 }
  else if addr ≤ 0x9fff then
    let offset := addr - 0x8000
    if m.is_gbc ∧ m.vram_bank < 2 ∧ offset < 0x2000 then
      let bank := (m.vram_banks.getD m.vram_bank (ByteVec.zeros 0)).set offset val
      { m with vram_banks := m.vram_banks.set m.vram_bank bank }
    else if offset < m.vram.size then { m with vram := m.vram.set offset val }
    else m
  else if addr ≤ 0xbfff then
    if m.ram_enabled then
      let offset := m.ram_bank * 0x2000 + (addr - 0xa000)
      if offset < m.eram.size then { m with eram := m.eram.set offset val } else m
    else m
  else if addr ≤ 0xcfff then
    let offset := addr - 0xc000
    if offset < m.wram.size then { m with wram := m.wram.set offset val } else m
  else if addr ≤ 0xdfff then
    let offset := addr - 0xd000
    if m.is_gbc ∧ m.wram_bank < 8 ∧ offset < 0x1000 then
      let bank := (m.wram_banks.getD m.wram_bank (ByteVec.zeros 0)).set offset val
      { m with wram_banks := m.wram_banks.set m.wram_bank bank }
    else if offset < m.wram.size then { m with wram := m.wram.set offset val }
    else m
  else if addr ≤ 0xfdff then
    -- echo: `self.write_byte(addr - 0x2000, val)`, inlined (target is 0xc000..=0xddff)
    let addr2 := addr - 0x2000
    if addr2 ≤ 0xcfff then
      let offset := addr2 - 0xc000
      if offset < m.wram.size then { m with wram := m.wram.set offset val } else m
    else
      let offset := addr2 - 0xd000
      if m.is_gbc ∧ m.wram_bank < 8 ∧ offset < 0x1000 then
        let bank := (m.wram_banks.getD m.wram_bank (ByteVec.zeros 0)).set offset val
        { m with wram_banks := m.wram_banks.set m.wram_bank bank }
      else if offset < m.wram.size then { m with wram := m.wram.set offset val }
      else m
  else if addr ≤ 0xfe9f then
    let offset := addr - 0xfe00
    if offset < m.oam.size then { m with oam := m.oam.set offset val } else m
  else if addr ≤ 0xfeff then m
  else if addr ≤ 0xff7f then m.write_io addr val
  else if addr ≤ 0xfffe then
    let offset := addr - 0xff80
    if offset < m.hram.size then { m with hram := m.hram.set offset val } else m
  else if addr = 0xffff then { m with ie := val % 256 }
  else m

/-- `MMU::joypad_press(bit)`: latch the button (active low) and request
the joypad interrupt (IF bit 4) unconditionally. -/
def joypad_press (m : MMU) (bit : Nat) : MMU :=
  let m := { m with joypad_buttons := m.joypad_buttons &&& ((1 <<< bit) ^^^ 0xff) }
  { m with io := m.io.set 0x0F (m.io.get 0x0F ||| 0x10) }

/-- `MMU::joypad_release(bit)`. -/
def joypad_release (m : MMU) (bit : Nat) : MMU :=
  { m with joypad_buttons := (m.joypad_buttons ||| (1 <<< bit)) % 256 }

end MMU

/-! ## PPU (`ppu.rs`) -/

/-- PPU state, `ppu.rs`: RGBA framebuffer plus scanline cycle counter. -/
structure PPU where
  frame_buffer : ByteVec
  scanline_counter : Nat
deriving DecidableEq, Repr

namespace PPU

def get_ly (m : MMU) : Nat := m.io.get 0x44

def set_ly (m : MMU) (value : Nat) : MMU := { m with io := m.io.set 0x44 value }

def get_mode (m : MMU) : Nat := m.io.get 0x41 &&& 0x03

def request_interrupt (m : MMU) (interrupt : Nat) : MMU :=
  let if_ := m.readByte 0xff0f
  m.writeByte 0xff0f (if_ ||| (1 <<< interrupt))

/-- `PPU::set_mode`: write the mode bits of STAT and raise the STAT
interrupt when the corresponding enable bit is set (never for V-blank). -/
def set_mode (m : MMU) (mode : Nat) : MMU :=
  let stat := m.io.get 0x41
  let stat_interrupt_enabled := if mode ≠ 1 then (stat >>> (mode + 3)) &&& 1 else 0
  let m := { m with io := m.io.set 0x41 ((stat &&& 0xfc) ||| (mode &&& 0x03)) }
  if stat_interrupt_enabled ≠ 0 then request_interrupt m 1 else m

/-- `PPU::check_lyc`: LY=LYC coincidence flag and STAT interrupt. -/
def check_lyc (m : MMU) : MMU :=
  let ly := m.io.get 0x44
  let lyc := m.io.get 0x45
  let stat := m.io.get 0x41
  if ly = lyc then
    let m := { m with io := m.io.set 0x41 (stat ||| 0x04) }
    if stat &&& 0x40 ≠ 0 then request_interrupt m 1 else m
  else { m with io := m.io.set 0x41 (stat &&& 0xfb) }

/-- `PPU::get_color`: DMG palette (green shades). -/
def get_color (color : Nat) : Nat × Nat × Nat :=
  if color &&& 0x03 = 0 then (224, 248, 208)
  else if color &&& 0x03 = 1 then (136, 192, 112)
  else if color &&& 0x03 = 2 then (52, 104, 86)
  else (8, 24, 32)

/-- `PPU::set_pixel_rgb`.  The source `panic!`s when the derived index is
out of bounds; that branch is unreachable for the allocated
160*144*4-byte buffer and is modelled as leaving the buffer unchanged. -/
def set_pixel_rgb (p : PPU) (ly x : Nat) (rgb : Nat × Nat × Nat) : PPU :=
  let idx := (ly * 160 + x) * 4
  if idx + 3 ≥ p.frame_buffer.size then p
  else
    let fb := p.frame_buffer.set idx rgb.1
    let fb := fb.set (idx + 1) rgb.2.1
    let fb := fb.set (idx + 2) rgb.2.2
    let fb := fb.set (idx + 3) 255
    { p with frame_buffer := fb }

/-- Body of the `render_background` column loop at column `x`. -/
def renderBgColumn (p : PPU) (m : MMU) (ly x : Nat) : PPU :=
  let io := m.io
  let lcdc := io.get 0x40
  let scy := io.get 0x42
  let scx := io.get 0x43
  let bgp := io.get 0x47
  let tile_map_base := if lcdc &&& 0x08 ≠ 0 then 0x9c00 else 0x9800
  let tile_data_base := if lcdc &&& 0x10 ≠ 0 then 0x8000 else 0x8800
  let signed_tile_data := lcdc &&& 0x10 = 0
  let y := (ly + scy) % 256
  let tile_y := (y >>> 3) &&& 31
  let x_pos := (x + scx) % 256
  let tile_x := (x_pos >>> 3) &&& 31
  let tile_index := tile_y * 32 + tile_x
  let tile_num := m.readByte (tile_map_base + tile_index)
  let tile_addr :=
    if signed_tile_data then
      (tile_data_base + ((signExt8 tile_num + 128) % 65536) * 16) % 65536
    else tile_data_base + tile_num * 16
  let tile_line := (y &&& 7) * 2
  let byte1 := m.readByte ((tile_addr + tile_line) % 65536)
  let byte2 := m.readByte ((tile_addr + tile_line + 1) % 65536)
  let bit_pos := 7 - (x_pos &&& 7)
  let color_num := (((byte2 >>> bit_pos) &&& 1) <<< 1) ||| ((byte1 >>> bit_pos) &&& 1)
  let color := (bgp >>> (color_num * 2)) &&& 0x03
  p.set_pixel_rgb ly x (get_color color)

/-- The `for x in 0..SCREEN_WIDTH` loop of `render_background`
(`n` counts the remaining columns). -/
def renderBgLoop (m : MMU) (ly : Nat) : Nat → PPU → PPU
  | 0, p => p
  | n + 1, p => renderBgLoop m ly n (renderBgColumn p m ly (160 - (n + 1)))

/-- `PPU::render_background`. -/
def render_background (p : PPU) (m : MMU) (ly : Nat) : PPU :=
  renderBgLoop m ly 160 p

/-- The line-clear loop of `render_scanline` (writes white RGBA to every
column; the out-of-bounds `panic!` is modelled as leaving the buffer). -/
def clearLineLoop (ly : Nat) : Nat → PPU → PPU
  | 0, p => p
  | n + 1, p =>
    let x := 160 - (n + 1)
    let offset := ly * 160 * 4 + x * 4
    let p :=
      if offset + 3 ≥ p.frame_buffer.size then p
      else
        let fb := p.frame_buffer.set offset 255
        let fb := fb.set (offset + 1) 255
        let fb := fb.set (offset + 2) 255
        let fb := fb.set (offset + 3) 255
        { p with frame_buffer := fb }
    clearLineLoop ly n p

/-- `PPU::render_scanline`.  The window and sprite layers are statically
disabled in the source (`if false && lcdc & 0x20 != 0` and
`if false && lcdc & 0x02 != 0`), so only the clear and the background
layer remain. -/
def render_scanline (p : PPU) (m : MMU) : PPU :=
  let lcdc := m.io.get 0x40
  let ly := get_ly m
  if 144 ≤ ly then p
  else
    let p := clearLineLoop ly 160 p
    if lcdc &&& 0x01 ≠ 0 then p.render_background m ly else p

/-- The trailing mode-update block of `PPU::step` (runs whenever the
step did not signal a completed frame; `ly` is the value read before
any scanline increment). -/
def stepModeUpdate (p : PPU) (m : MMU) (ly : Nat) : Bool × PPU × MMU :=
  if ly < 144 then
    if p.scanline_counter < 80 then (false, p, set_mode m 2)
    else if p.scanline_counter < 80 + 172 then
      if get_mode m ≠ 3 then
        let m := set_mode m 3
        let p := p.render_scanline m
        (false, p, m)
      else (false, p, m)
    else
      if get_mode m ≠ 0 then (false, p, set_mode m 0) else (false, p, m)
  else (false, p, m)

/-- `PPU::step`: returns (frame ready?, ppu, mmu). -/
def step (p : PPU) (m : MMU) (cycles : Nat) : Bool × PPU × MMU :=
  let lcdc := m.io.get 0x40
  -- LCD off?
  if lcdc &&& 0x80 = 0 then (false, p, m)
  else
    let p := { p with scanline_counter := p.scanline_counter + cycles }
    let ly := get_ly m
    -- End of scanline
    if 456 ≤ p.scanline_counter then
      let p := { p with scanline_counter := p.scanline_counter - 456 }
      let new_ly := (ly + 1) % 154
      let m := set_ly m new_ly
      let m := check_lyc m
      if new_ly = 144 then
        let m := set_mode m 1
        let m := request_interrupt m 0
        (true, p, m)
      else
        let m := if new_ly = 0 then set_mode m 2 else m
        stepModeUpdate p m ly
    else stepModeUpdate p m ly

end PPU

/-! ## Execution core (`lib.rs`) -/

/-- Orchestrator state, `lib.rs` (`struct GameBoy`).  The `cycles` field
is a `u32` in the source; all additions are taken `% 2^32` (see
`addCycles`). -/
structure GameBoy where
  running : Bool
  mmu : MMU
  registers : Registers
  timer : Timer
  input : Input
  ppu : PPU
  apu : APU
  cycles : Nat
  halted : Bool
  ime : Bool
  ime_scheduled : Bool
  trace_enabled : Bool
  trace_buf : List (Nat × Nat × Nat)
  trace_idx : Nat
  last_interrupt : Option (Nat × Nat × Nat × Nat)
deriving DecidableEq, Repr

namespace GameBoy

/-- `self.cycles += k` with `u32` wrap-around. -/
def addCycles (gb : GameBoy) (k : Nat) : GameBoy :=
  { gb with cycles := (gb.cycles + k) % 2 ^ 32 }

/-- `GameBoy::fetch_byte`. -/
def fetch_byte (gb : GameBoy) : Nat × GameBoy :=
  let byte := gb.mmu.readByte gb.registers.pc
  (byte, { gb with registers := { gb.registers with pc := (gb.registers.pc + 1) % 65536 } })

/-- `GameBoy::fetch_word`. -/
def fetch_word (gb : GameBoy) : Nat × GameBoy :=
  let (lo, gb) := gb.fetch_byte
  let (hi, gb) := gb.fetch_byte
  ((hi <<< 8) ||| lo, gb)

/-- `GameBoy::push_word`. -/
def push_word (gb : GameBoy) (val : Nat) : GameBoy :=
  let sp := (gb.registers.sp + 65536 - 1) % 65536
  let gb := { gb with registers := { gb.registers with sp := sp },
                      mmu := gb.mmu.writeByte sp ((val >>> 8) % 256) }
  let sp := (gb.registers.sp + 65536 - 1) % 65536
  { gb with registers := { gb.registers with sp := sp },
            mmu := gb.mmu.writeByte sp (val % 256) }

/-- `GameBoy::pop_word`. -/
def pop_word (gb : GameBoy) : Nat × GameBoy :=
  let lo := gb.mmu.readByte gb.registers.sp
  let gb := { gb with registers := { gb.registers with sp := (gb.registers.sp + 1) % 65536 } }
  let hi := gb.mmu.readByte gb.registers.sp
  let gb := { gb with registers := { gb.registers with sp := (gb.registers.sp + 1) % 65536 } }
  ((hi <<< 8) ||| lo, gb)

/-! ### ALU helper operations (`lib.rs`) -/

def add8 (gb : GameBoy) (value : Nat) : GameBoy :=
  let r := gb.registers
  let result := (r.a + value) % 256
  let r := r.set_flag_z (result = 0)
  let r := r.set_flag_n false
  let r := r.set_flag_h ((gb.registers.a &&& 0x0f) + (value &&& 0x0f) > 0x0f)
  let r := r.set_flag_c (gb.registers.a + value > 0xff)
  { gb with registers := { r with a := result } }

def adc8 (gb : GameBoy) (value : Nat) : GameBoy :=
  let carry := if gb.registers.flag_c then 1 else 0
  let result := (gb.registers.a + value + carry) % 256
  let r := gb.registers
  let r := r.set_flag_z (result = 0)
  let r := r.set_flag_n false
  let r := r.set_flag_h ((gb.registers.a &&& 0x0f) + (value &&& 0x0f) + carry > 0x0f)
  let r := r.set_flag_c (gb.registers.a + value + carry > 0xff)
  { gb with registers := { r with a := result } }

def sub8 (gb : GameBoy) (value : Nat) : GameBoy :=
  let result := (gb.registers.a + 256 - value % 256) % 256
  let r := gb.registers
  let r := r.set_flag_z (result = 0)
  let r := r.set_flag_n true
  let r := r.set_flag_h ((gb.registers.a &&& 0x0f) < (value &&& 0x0f))
  let r := r.set_flag_c (gb.registers.a < value)
  { gb with registers := { r with a := result } }

def sbc8 (gb : GameBoy) (value : Nat) : GameBoy :=
  let carry := if gb.registers.flag_c then 1 else 0
  let result := (gb.registers.a + 512 - value % 256 - carry) % 256
  let r := gb.registers
  let r := r.set_flag_z (result = 0)
  let r := r.set_flag_n true
  let r := r.set_flag_h ((gb.registers.a &&& 0x0f) < (value &&& 0x0f) + carry)
  let r := r.set_flag_c (gb.registers.a < value + carry)
  { gb with registers := { r with a := result } }

def and8 (gb : GameBoy) (value : Nat) : GameBoy :=
  let a := gb.registers.a &&& value
  let r := { gb.registers with a := a }
  let r := r.set_flag_z (a = 0)
  let r := r.set_flag_n false
  let r := r.set_flag_h true
  let r := r.set_flag_c false
  { gb with registers := r }

def xor8 (gb : GameBoy) (value : Nat) : GameBoy :=
  let a := gb.registers.a ^^^ value
  let r := { gb.registers with a := a }
  let r := r.set_flag_z (a = 0)
  let r := r.set_flag_n false
  let r := r.set_flag_h false
  let r := r.set_flag_c false
  { gb with registers := r }

def or8 (gb : GameBoy) (value : Nat) : GameBoy :=
  let a := gb.registers.a ||| value
  let r := { gb.registers with a := a }
  let r := r.set_flag_z (a = 0)
  let r := r.set_flag_n false
  let r := r.set_flag_h false
  let r := r.set_flag_c false
  { gb with registers := r }

def cp8 (gb : GameBoy) (value : Nat) : GameBoy :=
  let result := (gb.registers.a + 256 - value % 256) % 256
  let r := gb.registers
  let r := r.set_flag_z (result = 0)
  let r := r.set_flag_n true
  let r := r.set_flag_h ((gb.registers.a &&& 0x0f) < (value &&& 0x0f))
  let r := r.set_flag_c (gb.registers.a < value)
  { gb with registers := r }

/-- `GameBoy::inc8`: returns the incremented value, sets Z/N/H. -/
def inc8 (gb : GameBoy) (value : Nat) : Nat × GameBoy :=
  let result := (value + 1) % 256
  let r := gb.registers
  let r := r.set_flag_z (result = 0)
  let r := r.set_flag_n false
  let r := r.set_flag_h ((value &&& 0x0f) = 0x0f)
  (result, { gb with registers := r })

/-- `GameBoy::dec8`: returns the decremented value, sets Z/N/H. -/
def dec8 (gb : GameBoy) (value : Nat) : Nat × GameBoy :=
  let result := (value + 255) % 256
  let r := gb.registers
  let r := r.set_flag_z (result = 0)
  let r := r.set_flag_n true
  let r := r.set_flag_h ((value &&& 0x0f) = 0)
  (result, { gb with registers := r })

def add_hl (gb : GameBoy) (value : Nat) : GameBoy :=
  let hl := gb.registers.hl
  let result := (hl + value) % 65536
  let r := gb.registers
  let r := r.set_flag_n false
  let r := r.set_flag_h ((hl &&& 0x0fff) + (value &&& 0x0fff) > 0x0fff)
  let r := r.set_flag_c (hl + value > 0xffff)
  { gb with registers := r.set_hl result }

/-! ### Rotate/shift operations (`lib.rs`) -/

def rlca (gb : GameBoy) : GameBoy :=
  let carry := (gb.registers.a >>> 7) &&& 1
  let a := ((gb.registers.a <<< 1) % 256) ||| carry
  let r := { gb.registers with a := a }
  let r := r.set_flag_z false
  let r := r.set_flag_n false
  let r := r.set_flag_h false
  let r := r.set_flag_c (carry = 1)
  { gb with registers := r }

def rrca (gb : GameBoy) : GameBoy :=
  let carry := gb.registers.a &&& 1
  let a := (gb.registers.a >>> 1) ||| (carry <<< 7)
  let r := { gb.registers with a := a }
  let r := r.set_flag_z false
  let r := r.set_flag_n false
  let r := r.set_flag_h false
  let r := r.set_flag_c (carry = 1)
  { gb with registers := r }

def rla (gb : GameBoy) : GameBoy :=
  let carry := if gb.registers.flag_c then 1 else 0
  let new_carry := (gb.registers.a >>> 7) &&& 1
  let a := ((gb.registers.a <<< 1) % 256) ||| carry
  let r := { gb.registers with a := a }
  let r := r.set_flag_z false
  let r := r.set_flag_n false
  let r := r.set_flag_h false
  let r := r.set_flag_c (new_carry = 1)
  { gb with registers := r }

def rra (gb : GameBoy) : GameBoy :=
  let carry := if gb.registers.flag_c then 1 else 0
  let new_carry := gb.registers.a &&& 1
  let a := (gb.registers.a >>> 1) ||| (carry <<< 7)
  let r := { gb.registers with a := a }
  let r := r.set_flag_z false
  let r := r.set_flag_n false
  let r := r.set_flag_h false
  let r := r.set_flag_c (new_carry = 1)
  { gb with registers := r }

def rlc (gb : GameBoy) (value : Nat) : Nat × GameBoy :=
  let carry := (value >>> 7) &&& 1
  let result := ((value <<< 1) % 256) ||| carry
  let r := gb.registers.set_flag_z (result = 0)
  let r := r.set_flag_n false
  let r := r.set_flag_h false
  let r := r.set_flag_c (carry = 1)
  (result, { gb with registers := r })

def rrc (gb : GameBoy) (value : Nat) : Nat × GameBoy :=
  let carry := value &&& 1
  let result := (value >>> 1) ||| (carry <<< 7)
  let r := gb.registers.set_flag_z (result = 0)
  let r := r.set_flag_n false
  let r := r.set_flag_h false
  let r := r.set_flag_c (carry = 1)
  (result, { gb with registers := r })

def rl (gb : GameBoy) (value : Nat) : Nat × GameBoy :=
  let carry := if gb.registers.flag_c then 1 else 0
  let new_carry := (value >>> 7) &&& 1
  let result := ((value <<< 1) % 256) ||| carry
  let r := gb.registers.set_flag_z (result = 0)
  let r := r.set_flag_n false
  let r := r.set_flag_h false
  let r := r.set_flag_c (new_carry = 1)
  (result, { gb with registers := r })

def rr (gb : GameBoy) (value : Nat) : Nat × GameBoy :=
  let carry := if gb.registers.flag_c then 1 else 0
  let new_carry := value &&& 1
  let result := (value >>> 1) ||| (carry <<< 7)
  let r := gb.registers.set_flag_z (result = 0)
  let r := r.set_flag_n false
  let r := r.set_flag_h false
  let r := r.set_flag_c (new_carry = 1)
  (result, { gb with registers := r })

def sla (gb : GameBoy) (value : Nat) : Nat × GameBoy :=
  let carry := (value >>> 7) &&& 1
  let result := (value <<< 1) % 256
  let r := gb.registers.set_flag_z (result = 0)
  let r := r.set_flag_n false
  let r := r.set_flag_h false
  let r := r.set_flag_c (carry = 1)
  (result, { gb with registers := r })

def sra (gb : GameBoy) (value : Nat) : Nat × GameBoy :=
  let carry := value &&& 1
  let result := (value >>> 1) ||| (value &&& 0x80)
  let r := gb.registers.set_flag_z (result = 0)
  let r := r.set_flag_n false
  let r := r.set_flag_h false
  let r := r.set_flag_c (carry = 1)
  (result, { gb with registers := r })

def srl (gb : GameBoy) (value : Nat) : Nat × GameBoy :=
  let carry := value &&& 1
  let result := value >>> 1
  let r := gb.registers.set_flag_z (result = 0)
  let r := r.set_flag_n false
  let r := r.set_flag_h false
  let r := r.set_flag_c (carry = 1)
  (result, { gb with registers := r })

def swap (gb : GameBoy) (value : Nat) : Nat × GameBoy :=
  let result := (value >>> 4) ||| ((value <<< 4) % 256)
  let r := gb.registers.set_flag_z (result = 0)
  let r := r.set_flag_n false
  let r := r.set_flag_h false
  let r := r.set_flag_c false
  (result, { gb with registers := r })

/-- `GameBoy::daa` (BCD adjust). -/
def daa (gb : GameBoy) : GameBoy :=
  let a := gb.registers.a
  let (a, r) :=
    if ¬gb.registers.flag_n then
      let (a, r) :=
        if gb.registers.flag_c ∨ a > 0x99 then
          ((a + 0x60) % 256, gb.registers.set_flag_c true)
        else (a, gb.registers)
      if r.flag_h ∨ (a &&& 0x0f) > 0x09 then ((a + 0x06) % 256, r)
      else (a, r)
    else
      let a := if gb.registers.flag_c then (a + 256 - 0x60) % 256 else a
      let a := if gb.registers.flag_h then (a + 256 - 0x06) % 256 else a
      (a, gb.registers)
  let r := { r with a := a }
  let r := r.set_flag_z (a = 0)
  let r := r.set_flag_h false
  { gb with registers := r }

/-- `GameBoy::rst`. -/
def rst (gb : GameBoy) (addr : Nat) : GameBoy :=
  let gb := gb.push_word gb.registers.pc
  let gb := { gb with registers := { gb.registers with pc := addr } }
  gb.addCycles 16

/-- `GameBoy::get_reg8`: read 8-bit register or `(HL)`. -/
def get_reg8 (gb : GameBoy) (index : Nat) : Nat :=
  if index = 0 then gb.registers.b
  else if index = 1 then gb.registers.c
  else if index = 2 then gb.registers.d
  else if index = 3 then gb.registers.e
  else if index = 4 then gb.registers.h
  else if index = 5 then gb.registers.l
  else if index = 6 then gb.mmu.readByte gb.registers.hl
  else if index = 7 then gb.registers.a
  else 0

/-- `GameBoy::set_reg8`: write 8-bit register or `(HL)`. -/
def set_reg8 (gb : GameBoy) (index value : Nat) : GameBoy :=
  if index = 0 then { gb with registers := { gb.registers with b := value } }
  else if index = 1 then { gb with registers := { gb.registers with c := value } }
  else if index = 2 then { gb with registers := { gb.registers with d := value } }
  else if index = 3 then { gb with registers := { gb.registers with e := value } }
  else if index = 4 then { gb with registers := { gb.registers with h := value } }
  else if index = 5 then { gb with registers := { gb.registers with l := value } }
  else if index = 6 then { gb with mmu := gb.mmu.writeByte gb.registers.hl value }
  else if index = 7 then { gb with registers := { gb.registers with a := value } }
  else gb

/-- `GameBoy::ld_rr` (opcodes 0x40-0x7F except 0x76). -/
def ld_rr (gb : GameBoy) (opcode : Nat) : GameBoy :=
  let dst := (opcode >>> 3) &&& 0x07
  let src := opcode &&& 0x07
  let value := gb.get_reg8 src
  let gb := gb.set_reg8 dst value
  gb.addCycles (if src = 6 ∨ dst = 6 then 8 else 4)

/-- `GameBoy::alu_op` (opcodes 0x80-0xBF). -/
def alu_op (gb : GameBoy) (opcode : Nat) : GameBoy :=
  let op := (opcode >>> 3) &&& 0x07
  let reg := opcode &&& 0x07
  let value := gb.get_reg8 reg
  let gb :=
    if op = 0 then gb.add8 value
    else if op = 1 then gb.adc8 value
    else if op = 2 then gb.sub8 value
    else if op = 3 then gb.sbc8 value
    else if op = 4 then gb.and8 value
    else if op = 5 then gb.xor8 value
    else if op = 6 then gb.or8 value
    else if op = 7 then gb.cp8 value
    else gb
  gb.addCycles (if reg = 6 then 8 else 4)

/-- `GameBoy::execute_cb_opcode` (CB-prefixed opcodes). -/
def execute_cb_opcode (gb : GameBoy) (opcode : Nat) : GameBoy :=
  let reg := opcode &&& 0x07
  let bit := (opcode >>> 3) &&& 0x07
  let op := (opcode >>> 6) &&& 0x03
  if op = 0 then
    -- Rot/shift
    let value := gb.get_reg8 reg
    let (result, gb) :=
      if bit = 0 then gb.rlc value
      else if bit = 1 then gb.rrc value
      else if bit = 2 then gb.rl value
      else if bit = 3 then gb.rr value
      else if bit = 4 then gb.sla value
      else if bit = 5 then gb.sra value
      else if bit = 6 then gb.swap value
      else gb.srl value
    let gb := gb.set_reg8 reg result
    gb.addCycles (if reg = 6 then 16 else 8)
  else if op = 1 then
    -- BIT b,r
    let value := gb.get_reg8 reg
    let r := gb.registers.set_flag_z ((value >>> bit) &&& 1 = 0)
    let r := r.set_flag_n false
    let r := r.set_flag_h true
    ({ gb with registers := r } : GameBoy).addCycles (if reg = 6 then 12 else 8)
  else if op = 2 then
    -- RES b,r
    let value := gb.get_reg8 reg
    let gb := gb.set_reg8 reg (value &&& ((1 <<< bit) ^^^ 0xff))
    gb.addCycles (if reg = 6 then 16 else 8)
  else
    -- SET b,r
    let value := gb.get_reg8 reg
    let gb := gb.set_reg8 reg (value ||| (1 <<< bit))
    gb.addCycles (if reg = 6 then 16 else 8)

end GameBoy

namespace GameBoy

/-- `GameBoy::execute_extended_opcode` (opcodes ≥ 0xC0 except 0xCB;
undefined opcodes fall through to a 4-cycle no-op). -/
def execute_extended_opcode (gb : GameBoy) (opcode : Nat) : GameBoy :=
  match opcode with
  | 0xc0 => -- RET NZ
    if ¬gb.registers.flag_z then
      let (v, gb) := gb.pop_word
      (({ gb with registers := { gb.registers with pc := v } } : GameBoy).addCycles 20)
    else gb.addCycles 8
  | 0xc1 => -- POP BC
    let (v, gb) := gb.pop_word
    ({ gb with registers := gb.registers.set_bc v } : GameBoy).addCycles 12
  | 0xc2 => -- JP NZ, nn
    let (addr, gb) := gb.fetch_word
    if ¬gb.registers.flag_z then
      ({ gb with registers := { gb.registers with pc := addr } } : GameBoy).addCycles 16
    else gb.addCycles 12
  | 0xc3 => -- JP nn
    let (addr, gb) := gb.fetch_word
    ({ gb with registers := { gb.registers with pc := addr } } : GameBoy).addCycles 16
  | 0xc4 => -- CALL NZ, nn
    let (addr, gb) := gb.fetch_word
    if ¬gb.registers.flag_z then
      let gb := gb.push_word gb.registers.pc
      ({ gb with registers := { gb.registers with pc := addr } } : GameBoy).addCycles 24
    else gb.addCycles 12
  | 0xc5 => (gb.push_word gb.registers.bc).addCycles 16 -- PUSH BC
  | 0xc6 => -- ADD A, n
    let (v, gb) := gb.fetch_byte
    (gb.add8 v).addCycles 8
  | 0xc7 => gb.rst 0x00 -- RST 00H
  | 0xc8 => -- RET Z
    if gb.registers.flag_z then
      let (v, gb) := gb.pop_word
      ({ gb with registers := { gb.registers with pc := v } } : GameBoy).addCycles 20
    else gb.addCycles 8
  | 0xc9 => -- RET
    let (v, gb) := gb.pop_word
    ({ gb with registers := { gb.registers with pc := v } } : GameBoy).addCycles 16
  | 0xca => -- JP Z, nn
    let (addr, gb) := gb.fetch_word
    if gb.registers.flag_z then
      ({ gb with registers := { gb.registers with pc := addr } } : GameBoy).addCycles 16
    else gb.addCycles 12
  | 0xcc => -- CALL Z, nn
    let (addr, gb) := gb.fetch_word
    if gb.registers.flag_z then
      let gb := gb.push_word gb.registers.pc
      ({ gb with registers := { gb.registers with pc := addr } } : GameBoy).addCycles 24
    else gb.addCycles 12
  | 0xcd => -- CALL nn
    let (addr, gb) := gb.fetch_word
    let gb := gb.push_word gb.registers.pc
    ({ gb with registers := { gb.registers with pc := addr } } : GameBoy).addCycles 24
  | 0xce => -- ADC A, n
    let (v, gb) := gb.fetch_byte
    (gb.adc8 v).addCycles 8
  | 0xcf => gb.rst 0x08 -- RST 08H
  | 0xd0 => -- RET NC
    if ¬gb.registers.flag_c then
      let (v, gb) := gb.pop_word
      ({ gb with registers := { gb.registers with pc := v } } : GameBoy).addCycles 20
    else gb.addCycles 8
  | 0xd1 => -- POP DE
    let (v, gb) := gb.pop_word
    ({ gb with registers := gb.registers.set_de v } : GameBoy).addCycles 12
  | 0xd2 => -- JP NC, nn
    let (addr, gb) := gb.fetch_word
    if ¬gb.registers.flag_c then
      ({ gb with registers := { gb.registers with pc := addr } } : GameBoy).addCycles 16
    else gb.addCycles 12
  | 0xd4 => -- CALL NC, nn
    let (addr, gb) := gb.fetch_word
    if ¬gb.registers.flag_c then
      let gb := gb.push_word gb.registers.pc
      ({ gb with registers := { gb.registers with pc := addr } } : GameBoy).addCycles 24
    else gb.addCycles 12
  | 0xd5 => (gb.push_word gb.registers.de).addCycles 16 -- PUSH DE
  | 0xd6 => -- SUB n
    let (v, gb) := gb.fetch_byte
    (gb.sub8 v).addCycles 8
  | 0xd7 => gb.rst 0x10 -- RST 10H
  | 0xd8 => -- RET C
    if gb.registers.flag_c then
      let (v, gb) := gb.pop_word
      ({ gb with registers := { gb.registers with pc := v } } : GameBoy).addCycles 20
    else gb.addCycles 8
  | 0xd9 => -- RETI
    let (v, gb) := gb.pop_word
    ({ gb with registers := { gb.registers with pc := v }, ime := true } : GameBoy).addCycles 16
  | 0xda => -- JP C, nn
    let (addr, gb) := gb.fetch_word
    if gb.registers.flag_c then
      ({ gb with registers := { gb.registers with pc := addr } } : GameBoy).addCycles 16
    else gb.addCycles 12
  | 0xdc => -- CALL C, nn
    let (addr, gb) := gb.fetch_word
    if gb.registers.flag_c then
      let gb := gb.push_word gb.registers.pc
      ({ gb with registers := { gb.registers with pc := addr } } : GameBoy).addCycles 24
    else gb.addCycles 12
  | 0xde => -- SBC A, n
    let (v, gb) := gb.fetch_byte
    (gb.sbc8 v).addCycles 8
  | 0xdf => gb.rst 0x18 -- RST 18H
  | 0xe0 => -- LDH (n), A
    let (offset, gb) := gb.fetch_byte
    ({ gb with mmu := gb.mmu.writeByte (0xff00 ||| offset) gb.registers.a } : GameBoy).addCycles 12
  | 0xe1 => -- POP HL
    let (v, gb) := gb.pop_word
    ({ gb with registers := gb.registers.set_hl v } : GameBoy).addCycles 12
  | 0xe2 => -- LD (C), A
    ({ gb with mmu := gb.mmu.writeByte (0xff00 ||| gb.registers.c) gb.registers.a } : GameBoy).addCycles 8
  | 0xe5 => (gb.push_word gb.registers.hl).addCycles 16 -- PUSH HL
  | 0xe6 => -- AND n
    let (v, gb) := gb.fetch_byte
    (gb.and8 v).addCycles 8
  | 0xe7 => gb.rst 0x20 -- RST 20H
  | 0xe8 => -- ADD SP, n
    let (offset, gb) := gb.fetch_byte
    let off := signExt8 offset
    let sp := gb.registers.sp
    let result := (sp + off) % 65536
    let r := gb.registers.set_flag_z false
    let r := r.set_flag_n false
    let r := r.set_flag_h ((sp &&& 0x0f) + (off &&& 0x0f) > 0x0f)
    let r := r.set_flag_c ((sp &&& 0xff) + (off &&& 0xff) > 0xff)
    ({ gb with registers := { r with sp := result } } : GameBoy).addCycles 16
  | 0xe9 => -- JP (HL)
    ({ gb with registers := { gb.registers with pc := gb.registers.hl } } : GameBoy).addCycles 4
  | 0xea => -- LD (nn), A
    let (addr, gb) := gb.fetch_word
    ({ gb with mmu := gb.mmu.writeByte addr gb.registers.a } : GameBoy).addCycles 16
  | 0xee => -- XOR n
    let (v, gb) := gb.fetch_byte
    (gb.xor8 v).addCycles 8
  | 0xef => gb.rst 0x28 -- RST 28H
  | 0xf0 => -- LDH A, (n)
    let (offset, gb) := gb.fetch_byte
    let a := gb.mmu.readByte (0xff00 ||| offset)
    ({ gb with registers := { gb.registers with a := a } } : GameBoy).addCycles 12
  | 0xf1 => -- POP AF
    let (v, gb) := gb.pop_word
    ({ gb with registers := gb.registers.set_af v } : GameBoy).addCycles 12
  | 0xf2 => -- LD A, (C)
    let a := gb.mmu.readByte (0xff00 ||| gb.registers.c)
    ({ gb with registers := { gb.registers with a := a } } : GameBoy).addCycles 8
  | 0xf3 => ({ gb with ime := false } : GameBoy).addCycles 4 -- DI
  | 0xf5 => (gb.push_word gb.registers.af).addCycles 16 -- PUSH AF
  | 0xf6 => -- OR n
    let (v, gb) := gb.fetch_byte
    (gb.or8 v).addCycles 8
  | 0xf7 => gb.rst 0x30 -- RST 30H
  | 0xf8 => -- LD HL, SP+n
    let (offset, gb) := gb.fetch_byte
    let off := signExt8 offset
    let sp := gb.registers.sp
    let result := (sp + off) % 65536
    let r := gb.registers.set_flag_z false
    let r := r.set_flag_n false
    let r := r.set_flag_h ((sp &&& 0x0f) + (off &&& 0x0f) > 0x0f)
    let r := r.set_flag_c ((sp &&& 0xff) + (off &&& 0xff) > 0xff)
    ({ gb with registers := r.set_hl result } : GameBoy).addCycles 12
  | 0xf9 => -- LD SP, HL
    ({ gb with registers := { gb.registers with sp := gb.registers.hl } } : GameBoy).addCycles 8
  | 0xfa => -- LD A, (nn)
    let (addr, gb) := gb.fetch_word
    let a := gb.mmu.readByte addr
    ({ gb with registers := { gb.registers with a := a } } : GameBoy).addCycles 16
  | 0xfb => ({ gb with ime_scheduled := true } : GameBoy).addCycles 4 -- EI
  | 0xfe => -- CP n
    let (v, gb) := gb.fetch_byte
    (gb.cp8 v).addCycles 8
  | 0xff => gb.rst 0x38 -- RST 38H
  | _ => gb.addCycles 4 -- illegal opcodes act as NOP

end GameBoy

namespace GameBoy

/-- `GameBoy::execute_opcode`: the main dispatch.  Opcodes 0x00-0x3F are
individual arms; 0x40-0x7F (except HALT) go to `ld_rr`, 0x80-0xBF to
`alu_op`, 0xCB fetches and dispatches the CB page, everything else to
`execute_extended_opcode`, exactly as the source `match`. -/
def execute_opcode (gb : GameBoy) (opcode : Nat) : GameBoy :=
  match opcode with
  | 0x00 => gb.addCycles 4 -- NOP
  | 0x01 => -- LD BC, nn
    let (v, gb) := gb.fetch_word
    ({ gb with registers := gb.registers.set_bc v } : GameBoy).addCycles 12
  | 0x02 => -- LD (BC), A
    ({ gb with mmu := gb.mmu.writeByte gb.registers.bc gb.registers.a } : GameBoy).addCycles 8
  | 0x03 => -- INC BC
    ({ gb with registers := gb.registers.set_bc ((gb.registers.bc + 1) % 65536) } : GameBoy).addCycles 8
  | 0x04 => -- INC B
    let (v, gb) := gb.inc8 gb.registers.b
    ({ gb with registers := { gb.registers with b := v } } : GameBoy).addCycles 4
  | 0x05 => -- DEC B
    let (v, gb) := gb.dec8 gb.registers.b
    ({ gb with registers := { gb.registers with b := v } } : GameBoy).addCycles 4
  | 0x06 => -- LD B, n
    let (v, gb) := gb.fetch_byte
    ({ gb with registers := { gb.registers with b := v } } : GameBoy).addCycles 8
  | 0x07 => gb.rlca.addCycles 4 -- RLCA
  | 0x08 => -- LD (nn), SP
    let (addr, gb) := gb.fetch_word
    let gb := { gb with mmu := gb.mmu.writeByte addr (gb.registers.sp &&& 0xff) }
    let gb := { gb with mmu := gb.mmu.writeByte ((addr + 1) % 65536) ((gb.registers.sp >>> 8) &&& 0xff) }
    gb.addCycles 20
  | 0x09 => (gb.add_hl gb.registers.bc).addCycles 8 -- ADD HL, BC
  | 0x0a => -- LD A, (BC)
    let a := gb.mmu.readByte gb.registers.bc
    ({ gb with registers := { gb.registers with a := a } } : GameBoy).addCycles 8
  | 0x0b => -- DEC BC
    ({ gb with registers := gb.registers.set_bc ((gb.registers.bc + 65535) % 65536) } : GameBoy).addCycles 8
  | 0x0c => -- INC C
    let (v, gb) := gb.inc8 gb.registers.c
    ({ gb with registers := { gb.registers with c := v } } : GameBoy).addCycles 4
  | 0x0d => -- DEC C
    let (v, gb) := gb.dec8 gb.registers.c
    ({ gb with registers := { gb.registers with c := v } } : GameBoy).addCycles 4
  | 0x0e => -- LD C, n
    let (v, gb) := gb.fetch_byte
    ({ gb with registers := { gb.registers with c := v } } : GameBoy).addCycles 8
  | 0x0f => gb.rrca.addCycles 4 -- RRCA
  | 0x10 => -- STOP (takes 2 bytes)
    let (_, gb) := gb.fetch_byte
    gb.addCycles 4
  | 0x11 => -- LD DE, nn
    let (v, gb) := gb.fetch_word
    ({ gb with registers := gb.registers.set_de v } : GameBoy).addCycles 12
  | 0x12 => -- LD (DE), A
    ({ gb with mmu := gb.mmu.writeByte gb.registers.de gb.registers.a } : GameBoy).addCycles 8
  | 0x13 => -- INC DE
    ({ gb with registers := gb.registers.set_de ((gb.registers.de + 1) % 65536) } : GameBoy).addCycles 8
  | 0x14 => -- INC D
    let (v, gb) := gb.inc8 gb.registers.d
    ({ gb with registers := { gb.registers with d := v } } : GameBoy).addCycles 4
  | 0x15 => -- DEC D
    let (v, gb) := gb.dec8 gb.registers.d
    ({ gb with registers := { gb.registers with d := v } } : GameBoy).addCycles 4
  | 0x16 => -- LD D, n
    let (v, gb) := gb.fetch_byte
    ({ gb with registers := { gb.registers with d := v } } : GameBoy).addCycles 8
  | 0x17 => gb.rla.addCycles 4 -- RLA
  | 0x18 => -- JR n
    let (offset, gb) := gb.fetch_byte
    ({ gb with registers := { gb.registers with pc := (gb.registers.pc + signExt8 offset) % 65536 } } : GameBoy).addCycles 12
  | 0x19 => (gb.add_hl gb.registers.de).addCycles 8 -- ADD HL, DE
  | 0x1a => -- LD A, (DE)
    let a := gb.mmu.readByte gb.registers.de
    ({ gb with registers := { gb.registers with a := a } } : GameBoy).addCycles 8
  | 0x1b => -- DEC DE
    ({ gb with registers := gb.registers.set_de ((gb.registers.de + 65535) % 65536) } : GameBoy).addCycles 8
  | 0x1c => -- INC E
    let (v, gb) := gb.inc8 gb.registers.e
    ({ gb with registers := { gb.registers with e := v } } : GameBoy).addCycles 4
  | 0x1d => -- DEC E
    let (v, gb) := gb.dec8 gb.registers.e
    ({ gb with registers := { gb.registers with e := v } } : GameBoy).addCycles 4
  | 0x1e => -- LD E, n
    let (v, gb) := gb.fetch_byte
    ({ gb with registers := { gb.registers with e := v } } : GameBoy).addCycles 8
  | 0x1f => gb.rra.addCycles 4 -- RRA
  | 0x20 => -- JR NZ, n
    let (offset, gb) := gb.fetch_byte
    if ¬gb.registers.flag_z then
      ({ gb with registers := { gb.registers with pc := (gb.registers.pc + signExt8 offset) % 65536 } } : GameBoy).addCycles 12
    else gb.addCycles 8
  | 0x21 => -- LD HL, nn
    let (v, gb) := gb.fetch_word
    ({ gb with registers := gb.registers.set_hl v } : GameBoy).addCycles 12
  | 0x22 => -- LD (HL+), A
    let gb := { gb with mmu := gb.mmu.writeByte gb.registers.hl gb.registers.a }
    ({ gb with registers := gb.registers.set_hl ((gb.registers.hl + 1) % 65536) } : GameBoy).addCycles 8
  | 0x23 => -- INC HL
    ({ gb with registers := gb.registers.set_hl ((gb.registers.hl + 1) % 65536) } : GameBoy).addCycles 8
  | 0x24 => -- INC H
    let (v, gb) := gb.inc8 gb.registers.h
    ({ gb with registers := { gb.registers with h := v } } : GameBoy).addCycles 4
  | 0x25 => -- DEC H
    let (v, gb) := gb.dec8 gb.registers.h
    ({ gb with registers := { gb.registers with h := v } } : GameBoy).addCycles 4
  | 0x26 => -- LD H, n
    let (v, gb) := gb.fetch_byte
    ({ gb with registers := { gb.registers with h := v } } : GameBoy).addCycles 8
  | 0x27 => gb.daa.addCycles 4 -- DAA
  | 0x28 => -- JR Z, n
    let (offset, gb) := gb.fetch_byte
    if gb.registers.flag_z then
      ({ gb with registers := { gb.registers with pc := (gb.registers.pc + signExt8 offset) % 65536 } } : GameBoy).addCycles 12
    else gb.addCycles 8
  | 0x29 => (gb.add_hl gb.registers.hl).addCycles 8 -- ADD HL, HL
  | 0x2a => -- LD A, (HL+)
    let a := gb.mmu.readByte gb.registers.hl
    let gb := { gb with registers := { gb.registers with a := a } }
    ({ gb with registers := gb.registers.set_hl ((gb.registers.hl + 1) % 65536) } : GameBoy).addCycles 8
  | 0x2b => -- DEC HL
    ({ gb with registers := gb.registers.set_hl ((gb.registers.hl + 65535) % 65536) } : GameBoy).addCycles 8
  | 0x2c => -- INC L
    let (v, gb) := gb.inc8 gb.registers.l
    ({ gb with registers := { gb.registers with l := v } } : GameBoy).addCycles 4
  | 0x2d => -- DEC L
    let (v, gb) := gb.dec8 gb.registers.l
    ({ gb with registers := { gb.registers with l := v } } : GameBoy).addCycles 4
  | 0x2e => -- LD L, n
    let (v, gb) := gb.fetch_byte
    ({ gb with registers := { gb.registers with l := v } } : GameBoy).addCycles 8
  | 0x2f => -- CPL
    let r := { gb.registers with a := gb.registers.a ^^^ 0xff }
    let r := r.set_flag_n true
    let r := r.set_flag_h true
    ({ gb with registers := r } : GameBoy).addCycles 4
  | 0x30 => -- JR NC, n
    let (offset, gb) := gb.fetch_byte
    if ¬gb.registers.flag_c then
      ({ gb with registers := { gb.registers with pc := (gb.registers.pc + signExt8 offset) % 65536 } } : GameBoy).addCycles 12
    else gb.addCycles 8
  | 0x31 => -- LD SP, nn
    let (v, gb) := gb.fetch_word
    ({ gb with registers := { gb.registers with sp := v } } : GameBoy).addCycles 12
  | 0x32 => -- LD (HL-), A
    let gb := { gb with mmu := gb.mmu.writeByte gb.registers.hl gb.registers.a }
    ({ gb with registers := gb.registers.set_hl ((gb.registers.hl + 65535) % 65536) } : GameBoy).addCycles 8
  | 0x33 => -- INC SP
    ({ gb with registers := { gb.registers with sp := (gb.registers.sp + 1) % 65536 } } : GameBoy).addCycles 8
  | 0x34 => -- INC (HL)
    let v := gb.mmu.readByte gb.registers.hl
    let (result, gb) := gb.inc8 v
    ({ gb with mmu := gb.mmu.writeByte gb.registers.hl result } : GameBoy).addCycles 12
  | 0x35 => -- DEC (HL)
    let v := gb.mmu.readByte gb.registers.hl
    let (result, gb) := gb.dec8 v
    ({ gb with mmu := gb.mmu.writeByte gb.registers.hl result } : GameBoy).addCycles 12
  | 0x36 => -- LD (HL), n
    let (v, gb) := gb.fetch_byte
    ({ gb with mmu := gb.mmu.writeByte gb.registers.hl v } : GameBoy).addCycles 12
  | 0x37 => -- SCF
    let r := gb.registers.set_flag_n false
    let r := r.set_flag_h false
    let r := r.set_flag_c true
    ({ gb with registers := r } : GameBoy).addCycles 4
  | 0x38 => -- JR C, n
    let (offset, gb) := gb.fetch_byte
    if gb.registers.flag_c then
      ({ gb with registers := { gb.registers with pc := (gb.registers.pc + signExt8 offset) % 65536 } } : GameBoy).addCycles 12
    else gb.addCycles 8
  | 0x39 => (gb.add_hl gb.registers.sp).addCycles 8 -- ADD HL, SP
  | 0x3a => -- LD A, (HL-)
    let a := gb.mmu.readByte gb.registers.hl
    let gb := { gb with registers := { gb.registers with a := a } }
    ({ gb with registers := gb.registers.set_hl ((gb.registers.hl + 65535) % 65536) } : GameBoy).addCycles 8
  | 0x3b => -- DEC SP
    ({ gb with registers := { gb.registers with sp := (gb.registers.sp + 65535) % 65536 } } : GameBoy).addCycles 8
  | 0x3c => -- INC A
    let (v, gb) := gb.inc8 gb.registers.a
    ({ gb with registers := { gb.registers with a := v } } : GameBoy).addCycles 4
  | 0x3d => -- DEC A
    let (v, gb) := gb.dec8 gb.registers.a
    ({ gb with registers := { gb.registers with a := v } } : GameBoy).addCycles 4
  | 0x3e => -- LD A, n
    let (v, gb) := gb.fetch_byte
    ({ gb with registers := { gb.registers with a := v } } : GameBoy).addCycles 8
  | 0x3f => -- CCF
    let r := gb.registers.set_flag_n false
    let r := r.set_flag_h false
    let r := r.set_flag_c (¬gb.registers.flag_c)
    ({ gb with registers := r } : GameBoy).addCycles 4
  | 0x76 => -- HALT
    ({ gb with halted := true } : GameBoy).addCycles 4
  | 0xcb => -- CB prefix
    let (cb_opcode, gb) := gb.fetch_byte
    gb.execute_cb_opcode cb_opcode
  | op =>
    if op ≤ 0x7f then gb.ld_rr op            -- 0x40-0x75, 0x77-0x7F: LD r,r'
    else if op ≤ 0xbf then gb.alu_op op      -- 0x80-0xBF: ALU operations
    else gb.execute_extended_opcode op       -- extended opcodes (0xC0+)

/-- `GameBoy::check_interrupts` (the `for i in 0..5` loop is unrolled). -/
def check_interrupts (gb : GameBoy) : Option Nat :=
  let ie := gb.mmu.readByte 0xffff
  let if_ := gb.mmu.readByte 0xff0f
  let interrupts := ie &&& if_
  if interrupts = 0 then none
  else if interrupts &&& 1 ≠ 0 then some 0
  else if interrupts &&& 2 ≠ 0 then some 1
  else if interrupts &&& 4 ≠ 0 then some 2
  else if interrupts &&& 8 ≠ 0 then some 3
  else if interrupts &&& 16 ≠ 0 then some 4
  else none

/-- The interrupt vectors `[0x40, 0x48, 0x50, 0x58, 0x60]`. -/
def handlerAddr (interrupt : Nat) : Nat :=
  [0x40, 0x48, 0x50, 0x58, 0x60].getD interrupt 0

/-- `GameBoy::handle_interrupt`. -/
def handle_interrupt (gb : GameBoy) (interrupt : Nat) : GameBoy :=
  let gb := { gb with ime := false, halted := false }
  let if_ := gb.mmu.readByte 0xff0f
  let gb := { gb with mmu := gb.mmu.writeByte 0xff0f (if_ &&& ((1 <<< interrupt) ^^^ 0xff)) }
  let pc_before := gb.registers.pc
  let ie := gb.mmu.readByte 0xffff
  let gb := { gb with last_interrupt := some (interrupt, pc_before, ie, if_) }
  -- Guard against stack overflow during rapid interrupt loops
  if gb.registers.sp < 0x8100 then
    -- Don't service this interrupt; clear all IF flags
    { gb with mmu := gb.mmu.writeByte 0xff0f 0 }
  else
    let gb := gb.push_word gb.registers.pc
    let gb := { gb with registers := { gb.registers with pc := handlerAddr interrupt } }
    gb.addCycles 20

/-- `GameBoy::step_cpu`: returns the consumed cycle count and the new
state (`u32` wrapping difference of the cycle accumulator). -/
def step_cpu (gb : GameBoy) : Nat × GameBoy :=
  if gb.halted then
    -- Check for pending interrupts even when halted
    let gb := if (gb.check_interrupts).isSome then { gb with halted := false } else gb
    (4, gb)
  else
    let cycles_before := gb.cycles
    let gb := if gb.ime_scheduled then { gb with ime := true, ime_scheduled := false } else gb
    -- Only service interrupts if IME is enabled
    match (if gb.ime then gb.check_interrupts else none) with
    | some interrupt =>
      let gb := gb.handle_interrupt interrupt
      ((gb.cycles + 2 ^ 32 - cycles_before) % 2 ^ 32, gb)
    | none =>
      let pc_before := gb.registers.pc
      let (opcode, gb) := gb.fetch_byte
      let gb :=
        if gb.trace_enabled then
          { gb with
            trace_buf := gb.trace_buf.set (gb.trace_idx &&& 0xff) (pc_before, opcode, gb.registers.sp),
            trace_idx := (gb.trace_idx + 1) % 2 ^ 64 }
        else gb
      let gb := gb.execute_opcode opcode
      ((gb.cycles + 2 ^ 32 - cycles_before) % 2 ^ 32, gb)

/-- One iteration of the `while` body of `GameBoy::run_frame`, acting on
(state, frame_cycles, frame_ready). -/
def frameBody (s : GameBoy × Nat × Bool) : GameBoy × Nat × Bool :=
  let (gb, frame_cycles, frame_ready) := s
  let (cpu_cycles, gb) := gb.step_cpu
  let frame_cycles := frame_cycles + cpu_cycles
  -- Update peripherals
  let (t, io) := gb.timer.step cpu_cycles gb.mmu.io
  let gb := { gb with timer := t, mmu := { gb.mmu with io := io } }
  let gb := { gb with apu := gb.apu.step cpu_cycles }
  -- PPU returns true when a frame is ready
  let (ready, p, m) := gb.ppu.step gb.mmu cpu_cycles
  let gb := { gb with ppu := p, mmu := m }
  (gb, frame_cycles, frame_ready || ready)

/-- The `while frame_cycles < target_cycles` loop of `run_frame`, with
fuel (`none` = fuel ran out before the budget was met). -/
def runFrameLoop : Nat → (GameBoy × Nat × Bool) → Option (GameBoy × Nat × Bool)
  | 0, _ => none
  | fuel + 1, s => if s.2.1 < 70224 then runFrameLoop fuel (frameBody s) else some s

/-- `GameBoy::run_frame`: returns the final state and `frame_ready`. -/
def run_frame (fuel : Nat) (gb : GameBoy) : Option (GameBoy × Bool) :=
  if gb.running = false then some (gb, false)
  else (runFrameLoop fuel (gb, 0, false)).map (fun s => (s.1, s.2.2))

/-- Ghost-instrumented variant of `frameBody` that additionally counts
the iterations in which the PPU signalled a completed frame (i.e. the
V-blank entries).  Projecting the counter away yields `frameBody`
(`frameBodyCount_fst`). -/
def frameBodyCount (s : GameBoy × Nat × Bool × Nat) : GameBoy × Nat × Bool × Nat :=
  let (gb, frame_cycles, frame_ready, count) := s
  let (cpu_cycles, gb) := gb.step_cpu
  let frame_cycles := frame_cycles + cpu_cycles
  let (t, io) := gb.timer.step cpu_cycles gb.mmu.io
  let gb := { gb with timer := t, mmu := { gb.mmu with io := io } }
  let gb := { gb with apu := gb.apu.step cpu_cycles }
  let (ready, p, m) := gb.ppu.step gb.mmu cpu_cycles
  let gb := { gb with ppu := p, mmu := m }
  (gb, frame_cycles, frame_ready || ready, count + if ready then 1 else 0)

/-- Ghost-instrumented variant of `runFrameLoop` carrying the V-blank
entry counter. -/
def runFrameLoopCount : Nat → (GameBoy × Nat × Bool × Nat) → Option (GameBoy × Nat × Bool × Nat)
  | 0, _ => none
  | fuel + 1, s => if s.2.1 < 70224 then runFrameLoopCount fuel (frameBodyCount s) else some s

/-- Staging helper: `k` guarded iterations of the `run_frame` loop body
(used to evaluate long runs in bounded chunks; related to
`runFrameLoop` by `runFrameLoop_frameIter`). -/
def frameIter : Nat → (GameBoy × Nat × Bool) → (GameBoy × Nat × Bool)
  | 0, s => s
  | k + 1, s => frameIter k (if s.2.1 < 70224 then frameBody s else s)

/-- Staging helper for the counting loop. -/
def frameIterCount : Nat → (GameBoy × Nat × Bool × Nat) → (GameBoy × Nat × Bool × Nat)
  | 0, s => s
  | k + 1, s => frameIterCount k (if s.2.1 < 70224 then frameBodyCount s else s)

/-- `GameBoy::press_button`. -/
def press_button (gb : GameBoy) (bit : Nat) : GameBoy :=
  { gb with input := gb.input.press_button bit, mmu := gb.mmu.joypad_press bit }

/-- `GameBoy::release_button`. -/
def release_button (gb : GameBoy) (bit : Nat) : GameBoy :=
  { gb with input := gb.input.release_button bit, mmu := gb.mmu.joypad_release bit }

end GameBoy

/-! ## Save states (`lib.rs` + the serde_json boundary) -/

/-- The `SaveState` record of `lib.rs`. -/
structure SaveState where
  a : Nat
  f : Nat
  b : Nat
  c : Nat
  d : Nat
  e : Nat
  h : Nat
  l : Nat
  sp : Nat
  pc : Nat
  cycles : Nat
deriving DecidableEq, Repr

namespace GameBoy

/-- Modelled from the spec: the persisted save-state format is the
serde_json textual encoding of the flat `SaveState` record —
"a flat structured record with fields {a,f,b,c,d,e,h,l: 8-bit;
sp,pc: 16-bit; cycles: 32-bit unsigned}, textual encoding,
forward-compatible by field name".  The external serde_json layer is
modelled as the field-name/value record it encodes. -/
def save_state (gb : GameBoy) : List (String × Nat) :=
  [("a", gb.registers.a), ("f", gb.registers.f), ("b", gb.registers.b),
   ("c", gb.registers.c), ("d", gb.registers.d), ("e", gb.registers.e),
   ("h", gb.registers.h), ("l", gb.registers.l), ("sp", gb.registers.sp),
   ("pc", gb.registers.pc), ("cycles", gb.cycles)]

/-- Modelled from the spec: deserialization of the persisted record by
field name (each field looked up by its name; any missing field makes
the whole parse fail, as serde derives do for the plain struct). -/
def parseSaveState (s : List (String × Nat)) : Option SaveState := do
  let a ← s.lookup "a"
  let f ← s.lookup "f"
  let b ← s.lookup "b"
  let c ← s.lookup "c"
  let d ← s.lookup "d"
  let e ← s.lookup "e"
  let h ← s.lookup "h"
  let l ← s.lookup "l"
  let sp ← s.lookup "sp"
  let pc ← s.lookup "pc"
  let cycles ← s.lookup "cycles"
  pure ⟨a, f, b, c, d, e, h, l, sp, pc, cycles⟩

/-- `GameBoy::load_state`: a parse failure leaves the state unchanged;
a successful parse restores the eight 8-bit registers, SP, PC and the
cycle accumulator. -/
def load_state (gb : GameBoy) (s : List (String × Nat)) : GameBoy :=
  match parseSaveState s with
  | some st =>
    { gb with
      registers := { a := st.a, f := st.f, b := st.b, c := st.c, d := st.d,
                     e := st.e, h := st.h, l := st.l, sp := st.sp, pc := st.pc },
      cycles := st.cycles }
  | none => gb

end GameBoy

/-! ## Power-on state (`MMU::new` + `MMU::reset`, `PPU::new` + `reset`,
`GameBoy::new`) -/

namespace MMU

/-- The I/O block right after `MMU::reset` (the listed IO defaults over
a zero block). -/
def resetIO : ByteVec :=
  let io := ByteVec.zeros 0x80
  let io := io.set 0x00 0xCF
  let io := io.set 0x05 0x00
  let io := io.set 0x06 0x00
  let io := io.set 0x07 0x00
  let io := io.set 0x10 0x80
  let io := io.set 0x11 0xbf
  let io := io.set 0x12 0xf3
  let io := io.set 0x14 0xbf
  let io := io.set 0x16 0x3f
  let io := io.set 0x17 0x00
  let io := io.set 0x19 0xbf
  let io := io.set 0x1a 0x7f
  let io := io.set 0x1b 0xff
  let io := io.set 0x1c 0x9f
  let io := io.set 0x1e 0xbf
  let io := io.set 0x20 0xff
  let io := io.set 0x21 0x00
  let io := io.set 0x22 0x00
  let io := io.set 0x23 0xbf
  let io := io.set 0x24 0x77
  let io := io.set 0x25 0xf3
  let io := io.set 0x26 0xf1
  let io := io.set 0x40 0x91
  let io := io.set 0x42 0x00
  let io := io.set 0x43 0x00
  let io := io.set 0x45 0x00
  let io := io.set 0x47 0xfc
  let io := io.set 0x48 0xff
  let io := io.set 0x49 0xff
  let io := io.set 0x4a 0x00
  let io := io.set 0x4b 0x00
  io

/-- `MMU::new()` (which ends in `reset()`): all buffers zeroed, I/O
defaults installed, bank 1 selected, joypad released. -/
def new : MMU :=
  { rom := ByteVec.zeros 0x8000
    vram := ByteVec.zeros 0x2000
    eram := ByteVec.zeros 0x2000
    wram := ByteVec.zeros 0x2000
    oam := ByteVec.zeros 0xa0
    io := resetIO
    hram := ByteVec.zeros 0x7f
    ie := 0
    rom_bank := 1
    ram_bank := 0
    ram_enabled := false
    mbc_type := 0
    banking_mode := 0
    is_gbc := false
    vram_bank := 0
    wram_bank := 1
    vram_banks := [ByteVec.zeros 0x2000, ByteVec.zeros 0x2000]
    wram_banks := List.replicate 8 (ByteVec.zeros 0x1000)
    cgb_bg_palette_data := ByteVec.zeros 64
    cgb_obj_palette_data := ByteVec.zeros 64
    bgpi := 0
    obpi := 0
    hdma_active := false
    hdma_hblank_mode := false
    hdma_src := 0
    hdma_dst := 0
    hdma_remaining := 0
    joypad_buttons := 0xff }

end MMU

namespace PPU

/-- `PPU::new()`: white (0xff-filled) RGBA framebuffer, counter 0. -/
def new : PPU :=
  { frame_buffer := ⟨160 * 144 * 4, (1 <<< (8 * (160 * 144 * 4))) - 1⟩
    scanline_counter := 0 }

end PPU

namespace GameBoy

/-- `GameBoy::new()`. -/
def new : GameBoy :=
  { running := false
    mmu := MMU.new
    registers := Registers.new
    timer := Timer.new
    input := Input.new
    ppu := PPU.new
    apu := APU.new
    cycles := 0
    halted := false
    ime := false
    ime_scheduled := false
    trace_enabled := false
    trace_buf := List.replicate 256 (0, 0, 0)
    trace_idx := 0
    last_interrupt := none }

end GameBoy



/-- C1 counterexample driver: a running, halted machine with the LCD
switched off (LCDC = 0) and no interrupts enabled. -/
def c1Gb : GameBoy :=
  { GameBoy.new with running := true, halted := true, mmu := { MMU.new with io := MMU.resetIO.set 0x40 0 } }

/-- The I/O block of the C1 run after `k` halted steps: only DIV moves. -/
def c1Io (k : Nat) : ByteVec := (MMU.resetIO.set 0x40 0).set 0x04 (4 * k / 256 % 256)

def c1Mmu (k : Nat) : MMU := { MMU.new with io := c1Io k }

def c1GbK (k : Nat) : GameBoy :=
  { c1Gb with timer := ⟨4 * k % 256, 0⟩, apu := ⟨4 * k⟩, mmu := c1Mmu k }

def c1State (k : Nat) : GameBoy × Nat × Bool := (c1GbK k, 4 * k, false)

/-- C6 counterexample driver: running, halted, LCD on (reset LCDC 0x91)
with a pathologically large scanline counter. -/
def c6Gb : GameBoy :=
  { GameBoy.new with running := true, halted := true, ppu := { PPU.new with scanline_counter := 8000000 } }

/-- STAT value after `k` halted steps of the C6 run. -/
def c6Stat (k : Nat) : Nat :=
  if k = 0 then 0 else if k % 154 = 0 then 6 else if k % 154 < 144 then 0 else 1

/-- IF value after `k` halted steps of the C6 run. -/
def c6IF (k : Nat) : Nat := if 144 ≤ k then 1 else 0

/-- The C6 I/O block with an explicit DIV byte `d`. -/
def c6Iod (k d : Nat) : ByteVec :=
  (((MMU.resetIO.set 0x04 d).set 0x44 (k % 154)).set 0x41 (c6Stat k)).set 0x0f (c6IF k)

def c6Io (k : Nat) : ByteVec := c6Iod k (4 * k / 256 % 256)

def c6Mmu (k : Nat) : MMU := { MMU.new with io := c6Io k }

def c6Ppu (k : Nat) : PPU := { PPU.new with scanline_counter := 8000000 - 452 * k }

def c6GbK (k : Nat) : GameBoy :=
  { c6Gb with timer := ⟨4 * k % 256, 0⟩, apu := ⟨4 * k⟩, mmu := c6Mmu k, ppu := c6Ppu k }

/-- Number of V-blank entries in the first `k` halted steps of the C6 run. -/
def c6Count (k : Nat) : Nat := (k + 10) / 154

def c6State (k : Nat) : GameBoy × Nat × Bool × Nat :=
  (c6GbK k, 4 * k, decide (144 ≤ k), c6Count k)

-- ===================== DEFINITIONS ABOVE / THEOREMS BELOW =====================

/-! ## ByteVec lemmas -/

namespace ByteVec

theorem size_set (a : ByteVec) (i v : Nat) : (a.set i v).size = a.size := by
  unfold ByteVec.set; split <;> rfl

/-- The payload written by `set` in div/mod normal form. -/
theorem setData_spec (d v i : Nat) :
    d % (1 <<< (8 * i)) + (v % 256) * (1 <<< (8 * i))
      + (d >>> (8 * (i + 1))) * (1 <<< (8 * (i + 1)))
    = d % 2 ^ (8 * i) + 2 ^ (8 * i) * ((v % 256) + 256 * (d / 2 ^ (8 * i) / 256)) := by
  rw [Nat.shiftLeft_eq, Nat.shiftRight_eq_div_pow, Nat.shiftLeft_eq]
  have h8 : 8 * (i + 1) = 8 * i + 8 := by ring
  rw [h8, pow_add, Nat.div_div_eq_div_mul]
  ring_nf

theorem modAdd_div (d C P : Nat) (hP : 0 < P) : (d % P + P * C) / P = C := by
  rw [Nat.add_mul_div_left _ _ hP, Nat.div_eq_of_lt (Nat.mod_lt _ hP), Nat.zero_add]

theorem modAdd_mod (d C P : Nat) : (d % P + P * C) % P = d % P := by
  rw [Nat.add_mul_mod_self_left, Nat.mod_mod_of_dvd _ dvd_rfl]

theorem get?_set_self (a : ByteVec) (i v : Nat) (h : i < a.size) :
    (a.set i v).get? i = some (v % 256) := by
  unfold ByteVec.set ByteVec.get?
  rw [if_pos h]
  simp only [h, if_pos]
  rw [setData_spec, Nat.shiftRight_eq_div_pow,
    modAdd_div _ _ _ (Nat.pos_pow_of_pos _ (by norm_num)),
    Nat.mul_comm 256, Nat.add_mul_mod_self_right, Nat.mod_mod_of_dvd _ dvd_rfl]

theorem get_set_self (a : ByteVec) (i v : Nat) (h : i < a.size) :
    (a.set i v).get i = v % 256 := by
  unfold ByteVec.get; rw [get?_set_self _ _ _ h]; rfl

-- lower bytes (j < i) preserved
theorem setData_div_lt (d v i j : Nat) (hij : j < i) :
    ((d % 2 ^ (8 * i) + 2 ^ (8 * i) * ((v % 256) + 256 * (d / 2 ^ (8 * i) / 256))) / 2 ^ (8 * j)) % 256
    = (d / 2 ^ (8 * j)) % 256 := by
  set C := (v % 256) + 256 * (d / 2 ^ (8 * i) / 256) with hC
  have hsplit : 8 * i = 8 * j + 8 * (i - j) := by omega
  have hq : (0:Nat) < 2 ^ (8 * j) := Nat.pos_pow_of_pos _ (by norm_num)
  rw [hsplit, pow_add]
  rw [Nat.mul_comm (2 ^ (8 * j)) (2 ^ (8 * (i - j))), Nat.mul_comm (2 ^ (8 * (i - j)) * 2 ^ (8 * j)) C]
  -- d % (m * q) + C * (m * q) over q
  rw [Nat.mul_comm (2 ^ (8 * (i - j)))]
  -- now: (d % (2^(8j) * 2^(8(i-j))) + C * (2^(8j) * 2^(8(i-j)))) / 2^(8j)
  rw [show C * (2 ^ (8 * j) * 2 ^ (8 * (i - j))) = 2 ^ (8 * j) * (C * 2 ^ (8 * (i - j))) by ring]
  rw [Nat.mul_comm (2 ^ (8 * j)) (C * 2 ^ (8 * (i - j)))]
  rw [Nat.add_mul_div_right _ _ hq]
  rw [Nat.mod_mul_right_div_self]
  have hdvd : (256:Nat) ∣ 2 ^ (8 * (i - j)) := by
    have : (256:Nat) = 2 ^ 8 := by norm_num
    rw [this]
    exact pow_dvd_pow 2 (by omega)
  obtain ⟨m', hm'⟩ := hdvd
  rw [hm']
  rw [show C * (256 * m') = (C * m') * 256 by ring]
  rw [Nat.add_mul_mod_self_right]
  rw [Nat.mod_mod_of_dvd _ ⟨m', rfl⟩]

-- higher bytes (i < j) preserved
theorem setData_div_gt (d v i j : Nat) (hij : i < j) :
    ((d % 2 ^ (8 * i) + 2 ^ (8 * i) * ((v % 256) + 256 * (d / 2 ^ (8 * i) / 256))) / 2 ^ (8 * j)) % 256
    = (d / 2 ^ (8 * j)) % 256 := by
  set P := 2 ^ (8 * i) with hP
  have hPpos : (0:Nat) < P := Nat.pos_pow_of_pos _ (by norm_num)
  have hsplit : 8 * j = (8 * i + 8) + 8 * (j - i - 1) := by omega
  have key : (d % P + P * ((v % 256) + 256 * (d / P / 256))) / (P * 256) = d / (P * 256) := by
    have hA : d % P + P * (v % 256) < P * 256 := by
      have h1 : d % P < P := Nat.mod_lt _ hPpos
      have h2 : v % 256 < 256 := Nat.mod_lt _ (by norm_num)
      calc d % P + P * (v % 256) ≤ (P - 1) + P * 255 := by
            apply Nat.add_le_add (by omega) (Nat.mul_le_mul_left _ (by omega))
        _ < P * 256 := by omega
    have hrw : d % P + P * ((v % 256) + 256 * (d / P / 256))
        = (d % P + P * (v % 256)) + (P * 256) * (d / (P * 256)) := by
      rw [Nat.div_div_eq_div_mul]; ring
    rw [hrw, Nat.add_mul_div_left _ _ (by positivity), Nat.div_eq_of_lt hA, Nat.zero_add]
  have hpow : (2:Nat) ^ (8 * j) = (P * 256) * 2 ^ (8 * (j - i - 1)) := by
    rw [hP, hsplit, pow_add, pow_add]; norm_num
  rw [hpow, ← Nat.div_div_eq_div_mul, key, Nat.div_div_eq_div_mul]

theorem get?_set_ne (a : ByteVec) (i j v : Nat) (hij : j ≠ i) :
    (a.set i v).get? j = a.get? j := by
  unfold ByteVec.set ByteVec.get?
  by_cases h : i < a.size
  · rw [if_pos h]
    simp only
    by_cases hj : j < a.size
    · rw [if_pos hj, if_pos hj]
      rw [setData_spec, Nat.shiftRight_eq_div_pow, Nat.shiftRight_eq_div_pow]
      rcases Nat.lt_or_ge j i with hlt | hge
      · rw [setData_div_lt _ _ _ _ hlt]
      · rw [setData_div_gt _ _ _ _ (by omega)]
    · rw [if_neg hj, if_neg hj]
  · rw [if_neg h]

theorem get_set_ne (a : ByteVec) (i j v : Nat) (hij : j ≠ i) :
    (a.set i v).get j = a.get j := by
  unfold ByteVec.get; rw [get?_set_ne _ _ _ _ hij]

theorem get?_lt_256 (a : ByteVec) (i x : Nat) (h : a.get? i = some x) : x < 256 := by
  unfold ByteVec.get? at h
  split at h
  · cases h; exact Nat.mod_lt _ (by norm_num)
  · cases h

theorem get_lt_256 (a : ByteVec) (i : Nat) : a.get i < 256 := by
  unfold ByteVec.get ByteVec.get?
  split
  · exact Nat.mod_lt _ (by norm_num)
  · norm_num

theorem set_set_self (a : ByteVec) (i v w : Nat) :
    (a.set i v).set i w = a.set i w := by
  by_cases h : i < a.size
  · simp only [ByteVec.set, h, if_true]
    congr 1
    rw [setData_spec, setData_spec, setData_spec]
    set P := 2 ^ (8 * i) with hP
    have hPpos : (0:Nat) < P := Nat.pos_pow_of_pos _ (by norm_num)
    have hmod : (a.data % P + P * ((v % 256) + 256 * (a.data / P / 256))) % P = a.data % P :=
      modAdd_mod _ _ _
    have hA : a.data % P + P * (v % 256) < P * 256 := by
      have h1 : a.data % P < P := Nat.mod_lt _ hPpos
      have h2 : v % 256 < 256 := Nat.mod_lt _ (by norm_num)
      calc a.data % P + P * (v % 256) ≤ (P - 1) + P * 255 := by
            apply Nat.add_le_add (by omega) (Nat.mul_le_mul_left _ (by omega))
        _ < P * 256 := by omega
    have hhi : (a.data % P + P * ((v % 256) + 256 * (a.data / P / 256))) / P / 256
        = a.data / P / 256 := by
      have hrw : a.data % P + P * ((v % 256) + 256 * (a.data / P / 256))
          = (a.data % P + P * (v % 256)) + (P * 256) * (a.data / (P * 256)) := by
        rw [Nat.div_div_eq_div_mul]; ring
      rw [Nat.div_div_eq_div_mul, hrw, Nat.add_mul_div_left _ _ (by positivity),
        Nat.div_eq_of_lt hA, Nat.zero_add, Nat.div_div_eq_div_mul]
    rw [hmod, hhi]
  · simp only [ByteVec.set, h, if_false]

end ByteVec

theorem iterState_io (f : MMU → MMU) (hf : ∀ m, (f m).io = m.io) (n : Nat) (m : MMU) :
    (iterState f n m).io = m.io := by
  induction n generalizing m with
  | zero => rfl
  | succ k ih => rw [iterState, ih, hf]

namespace MMU

set_option maxHeartbeats 1000000 in
/-- Writes below the OAM/I-O space never touch the I/O block. -/
theorem io_writeByte_low (m : MMU) (addr val : Nat) (h : addr ≤ 0xdfff) :
    (m.writeByte addr val).io = m.io := by
  rw [MMU.writeByte.eq_def]
  simp only [apply_ite MMU.io, ite_self]
  split_ifs <;> first | rfl | omega

theorem dmaLoop_io (src : Nat) (n : Nat) (m : MMU) : (dmaLoop src n m).io = m.io := by
  induction n generalizing m with
  | zero => rfl
  | succ k ih => simp only [dmaLoop]; rw [ih]

theorem dma_transfer_io (m : MMU) (val : Nat) : (m.dma_transfer val).io = m.io :=
  dmaLoop_io _ _ _

theorem hdmaStep_io (m : MMU) : (hdmaStep m).io = m.io := by
  simp only [MMU.hdmaStep, apply_ite MMU.io, ite_self]

theorem doHdmaCopy_io (len : Nat) (m : MMU) : (doHdmaCopy len m).io = m.io :=
  iterState_io _ hdmaStep_io _ _

/-- Helper for walking an `if` tree of MMU values while tracking the
IF byte. -/
theorem ByteVec.get?_ite (c : Prop) [Decidable c] (a b : ByteVec) (i : Nat) :
    (if c then a else b).get? i = if c then a.get? i else b.get? i := by
  split <;> rfl

set_option maxHeartbeats 1000000 in
/-- `write_io` at any I/O offset other than IF (0x0f) leaves the IF
byte unchanged. -/
theorem write_io_get?_0f (m : MMU) (off val : Nat) (hoff : off ≠ 0x0f) :
    (m.write_io (0xff00 + off) val).io.get? 0x0f = m.io.get? 0x0f := by
  rw [MMU.write_io.eq_def]
  rw [Nat.add_sub_cancel_left]
  have hmd := dma_transfer_io m val
  generalize MMU.dma_transfer m val = md at hmd
  simp only [apply_ite MMU.io]
  simp only [ByteVec.get?_ite]
  have hmh := doHdmaCopy_io (((val &&& 0x7f) + 1) * 16) { m with hdma_active := false }
  generalize doHdmaCopy (((val &&& 0x7f) + 1) * 16) { m with hdma_active := false } = mh at hmh ⊢
  dsimp only at hmh
  repeat'
    first
      | rfl
      | (rw [ByteVec.get?_set_ne _ _ _ _ (by omega)])
      | (rw [hmd])
      | (rw [hmh])
      | split
  simp only [ite_self]

/-- The echo-region write branch (a WRAM write) never touches I/O. -/
theorem wb_echo_io (m : MMU) (a2 val : Nat) :
    ((let addr2 := a2
      if addr2 ≤ 0xcfff then
        let offset := addr2 - 0xc000
        if offset < m.wram.size then { m with wram := m.wram.set offset val } else m
      else
        let offset := addr2 - 0xd000
        if m.is_gbc ∧ m.wram_bank < 8 ∧ offset < 0x1000 then
          let bank := (m.wram_banks.getD m.wram_bank (ByteVec.zeros 0)).set offset val
          { m with wram_banks := m.wram_banks.set m.wram_bank bank }
        else if offset < m.wram.size then { m with wram := m.wram.set offset val }
        else m : MMU)).io = m.io := by
  dsimp only
  repeat' first | split | rfl

/-- The OAM write branch never touches I/O. -/
theorem wb_oam_io (m : MMU) (a2 val : Nat) :
    ((let offset := a2
      if offset < m.oam.size then { m with oam := m.oam.set offset val } else m : MMU)).io
      = m.io := by
  dsimp only
  split <;> rfl

/-- The HRAM write branch never touches I/O. -/
theorem wb_hram_io (m : MMU) (a2 val : Nat) :
    ((let offset := a2
      if offset < m.hram.size then { m with hram := m.hram.set offset val } else m : MMU)).io
      = m.io := by
  dsimp only
  split <;> rfl

set_option maxHeartbeats 1000000 in
/-- `write_byte` anywhere except the IF register (0xff0f) leaves the IF
byte unchanged. -/
theorem writeByte_get?_0f (m : MMU) (addr val : Nat) (hne : addr ≠ 0xff0f) :
    (m.writeByte addr val).io.get? 0x0f = m.io.get? 0x0f := by
  by_cases h8 : addr ≤ 0xdfff
  · rw [io_writeByte_low m addr val h8]
  · rw [MMU.writeByte.eq_def]
    rw [if_neg (by omega : ¬ addr ≤ 0x1fff), if_neg (by omega : ¬ addr ≤ 0x3fff),
        if_neg (by omega : ¬ addr ≤ 0x5fff), if_neg (by omega : ¬ addr ≤ 0x7fff),
        if_neg (by omega : ¬ addr ≤ 0x9fff), if_neg (by omega : ¬ addr ≤ 0xbfff),
        if_neg (by omega : ¬ addr ≤ 0xcfff), if_neg (by omega : ¬ addr ≤ 0xdfff)]
    by_cases h9 : addr ≤ 0xfdff
    · rw [if_pos h9, wb_echo_io m (addr - 0x2000) val]
    · rw [if_neg h9]
      by_cases h10 : addr ≤ 0xfe9f
      · rw [if_pos h10, wb_oam_io m (addr - 0xfe00) val]
      · rw [if_neg h10]
        by_cases h11 : addr ≤ 0xfeff
        · rw [if_pos h11]
        · rw [if_neg h11]
          by_cases h12 : addr ≤ 0xff7f
          · rw [if_pos h12]
            obtain ⟨off, rfl⟩ : ∃ off, addr = 0xff00 + off := ⟨addr - 0xff00, by omega⟩
            exact write_io_get?_0f m off val (by omega)
          · rw [if_neg h12]
            by_cases h13 : addr ≤ 0xfffe
            · rw [if_pos h13, wb_hram_io m (addr - 0xff80) val]
            · rw [if_neg h13]
              by_cases h14 : addr = 0xffff
              · rw [if_pos h14]
              · rw [if_neg h14]

theorem ByteVec.set_mod (a : ByteVec) (i v : Nat) : a.set i (v % 256) = a.set i v := by
  simp only [ByteVec.set, Nat.mod_mod_of_dvd _ (dvd_refl 256)]

set_option maxHeartbeats 1000000 in
/-- Writing the IF register through the bus stores the value (mod 256). -/
theorem writeByte_ff0f (m : MMU) (val : Nat) :
    m.writeByte 0xff0f val = { m with io := m.io.set 0x0f val } := by
  rw [MMU.writeByte.eq_def]
  rw [if_neg (by decide : ¬ (0xff0f : Nat) ≤ 0x1fff),
      if_neg (by decide : ¬ (0xff0f : Nat) ≤ 0x3fff),
      if_neg (by decide : ¬ (0xff0f : Nat) ≤ 0x5fff),
      if_neg (by decide : ¬ (0xff0f : Nat) ≤ 0x7fff),
      if_neg (by decide : ¬ (0xff0f : Nat) ≤ 0x9fff),
      if_neg (by decide : ¬ (0xff0f : Nat) ≤ 0xbfff),
      if_neg (by decide : ¬ (0xff0f : Nat) ≤ 0xcfff),
      if_neg (by decide : ¬ (0xff0f : Nat) ≤ 0xdfff),
      if_neg (by decide : ¬ (0xff0f : Nat) ≤ 0xfdff),
      if_neg (by decide : ¬ (0xff0f : Nat) ≤ 0xfe9f),
      if_neg (by decide : ¬ (0xff0f : Nat) ≤ 0xfeff),
      if_pos (by decide : (0xff0f : Nat) ≤ 0xff7f)]
  rw [MMU.write_io.eq_def]
  dsimp only
  rw [if_neg (by decide : ¬ (0xff0f : Nat) - 0xff00 = 0x00),
      if_neg (by decide : ¬ (0xff0f : Nat) - 0xff00 = 0x04),
      if_neg (by decide : ¬ (0xff0f : Nat) - 0xff00 = 0x41),
      if_neg (by decide : ¬ (0xff0f : Nat) - 0xff00 = 0x44),
      if_neg (by decide : ¬ (0xff0f : Nat) - 0xff00 = 0x46),
      if_neg (show ¬(m.is_gbc ∧ (0xff0f : Nat) - 0xff00 = 0x4f) from fun h => absurd h.2 (by decide)),
      if_neg (show ¬(m.is_gbc ∧ (0xff0f : Nat) - 0xff00 = 0x70) from fun h => absurd h.2 (by decide)),
      if_neg (show ¬(m.is_gbc ∧ (0xff0f : Nat) - 0xff00 = 0x51) from fun h => absurd h.2 (by decide)),
      if_neg (show ¬(m.is_gbc ∧ (0xff0f : Nat) - 0xff00 = 0x52) from fun h => absurd h.2 (by decide)),
      if_neg (show ¬(m.is_gbc ∧ (0xff0f : Nat) - 0xff00 = 0x53) from fun h => absurd h.2 (by decide)),
      if_neg (show ¬(m.is_gbc ∧ (0xff0f : Nat) - 0xff00 = 0x54) from fun h => absurd h.2 (by decide)),
      if_neg (show ¬(m.is_gbc ∧ (0xff0f : Nat) - 0xff00 = 0x68) from fun h => absurd h.2 (by decide)),
      if_neg (show ¬(m.is_gbc ∧ (0xff0f : Nat) - 0xff00 = 0x69) from fun h => absurd h.2 (by decide)),
      if_neg (show ¬(m.is_gbc ∧ (0xff0f : Nat) - 0xff00 = 0x6a) from fun h => absurd h.2 (by decide)),
      if_neg (show ¬(m.is_gbc ∧ (0xff0f : Nat) - 0xff00 = 0x6b) from fun h => absurd h.2 (by decide)),
      if_neg (show ¬(m.is_gbc ∧ (0xff0f : Nat) - 0xff00 = 0x55) from fun h => absurd h.2 (by decide))]
  rw [ByteVec.set_mod, (by decide : (0xff0f : Nat) - 0xff00 = 0x0f)]

/-- Reading 0xff0f yields the IF byte. -/
theorem readByte_ff0f (m : MMU) : m.readByte 0xff0f = m.io.get 0x0f := by
  rw [MMU.readByte.eq_def]
  rw [if_neg (by decide : ¬ (0xff0f : Nat) ≤ 0x3fff),
      if_neg (by decide : ¬ (0xff0f : Nat) ≤ 0x7fff),
      if_neg (by decide : ¬ (0xff0f : Nat) ≤ 0x9fff),
      if_neg (by decide : ¬ (0xff0f : Nat) ≤ 0xbfff),
      if_neg (by decide : ¬ (0xff0f : Nat) ≤ 0xcfff),
      if_neg (by decide : ¬ (0xff0f : Nat) ≤ 0xdfff),
      if_neg (by decide : ¬ (0xff0f : Nat) ≤ 0xfdff),
      if_neg (by decide : ¬ (0xff0f : Nat) ≤ 0xfe9f),
      if_neg (by decide : ¬ (0xff0f : Nat) ≤ 0xfeff),
      if_pos (by decide : (0xff0f : Nat) ≤ 0xff7f)]
  rw [MMU.read_io.eq_def]
  dsimp only
  rw [if_neg (by decide : ¬ (0xff0f : Nat) - 0xff00 = 0x00),
      if_neg (show ¬(m.is_gbc ∧ (0xff0f : Nat) - 0xff00 = 0x4f) from fun h => absurd h.2 (by decide)),
      if_neg (show ¬(m.is_gbc ∧ (0xff0f : Nat) - 0xff00 = 0x70) from fun h => absurd h.2 (by decide)),
      if_neg (show ¬(m.is_gbc ∧ (0xff0f : Nat) - 0xff00 = 0x68) from fun h => absurd h.2 (by decide)),
      if_neg (show ¬(m.is_gbc ∧ (0xff0f : Nat) - 0xff00 = 0x69) from fun h => absurd h.2 (by decide)),
      if_neg (show ¬(m.is_gbc ∧ (0xff0f : Nat) - 0xff00 = 0x6a) from fun h => absurd h.2 (by decide)),
      if_neg (show ¬(m.is_gbc ∧ (0xff0f : Nat) - 0xff00 = 0x6b) from fun h => absurd h.2 (by decide)),
      if_neg (show ¬(m.is_gbc ∧ (0xff0f : Nat) - 0xff00 = 0x51) from fun h => absurd h.2 (by decide)),
      if_neg (show ¬(m.is_gbc ∧ (0xff0f : Nat) - 0xff00 = 0x52) from fun h => absurd h.2 (by decide)),
      if_neg (show ¬(m.is_gbc ∧ (0xff0f : Nat) - 0xff00 = 0x53) from fun h => absurd h.2 (by decide)),
      if_neg (show ¬(m.is_gbc ∧ (0xff0f : Nat) - 0xff00 = 0x54) from fun h => absurd h.2 (by decide)),
      if_neg (show ¬(m.is_gbc ∧ (0xff0f : Nat) - 0xff00 = 0x55) from fun h => absurd h.2 (by decide))]

/-- Reading 0xffff yields the IE register. -/
theorem readByte_ffff (m : MMU) : m.readByte 0xffff = m.ie := by
  rw [MMU.readByte.eq_def]
  rw [if_neg (by decide : ¬ (0xffff : Nat) ≤ 0x3fff),
      if_neg (by decide : ¬ (0xffff : Nat) ≤ 0x7fff),
      if_neg (by decide : ¬ (0xffff : Nat) ≤ 0x9fff),
      if_neg (by decide : ¬ (0xffff : Nat) ≤ 0xbfff),
      if_neg (by decide : ¬ (0xffff : Nat) ≤ 0xcfff),
      if_neg (by decide : ¬ (0xffff : Nat) ≤ 0xdfff),
      if_neg (by decide : ¬ (0xffff : Nat) ≤ 0xfdff),
      if_neg (by decide : ¬ (0xffff : Nat) ≤ 0xfe9f),
      if_neg (by decide : ¬ (0xffff : Nat) ≤ 0xfeff),
      if_neg (by decide : ¬ (0xffff : Nat) ≤ 0xff7f),
      if_neg (by decide : ¬ (0xffff : Nat) ≤ 0xfffe),
      if_pos (by decide : (0xffff : Nat) = 0xffff)]

end MMU

/-- Bit-mask distribution helper: masking an `|||` by `0x1f` ignores the
`0x60`-masked summand. -/
theorem land31_lor_land96 (a b : Nat) : ((a &&& 0x60) ||| b) &&& 0x1f = b &&& 0x1f := by
  apply Nat.eq_of_testBit_eq
  intro i
  simp only [Nat.testBit_land, Nat.testBit_lor]
  by_cases hi : i < 5
  · interval_cases i <;> simp [show Nat.testBit 0x60 0 = false from rfl,
      show Nat.testBit 0x60 1 = false from rfl, show Nat.testBit 0x60 2 = false from rfl,
      show Nat.testBit 0x60 3 = false from rfl, show Nat.testBit 0x60 4 = false from rfl]
  · have h31 : Nat.testBit 0x1f i = false := by
      apply Nat.testBit_eq_false_of_lt
      calc (0x1f : Nat) < 2 ^ 5 := by decide
        _ ≤ 2 ^ i := Nat.pow_le_pow_right (by decide) (by omega)
    simp [h31]

/-- C7.  A write in `0x2000..=0x3fff` installs the value's low five bits
as the switchable bank's low five bits, remapping 0 to 1. -/
theorem claim_C7 (m : MMU) (addr val : Nat) (h1 : 0x2000 ≤ addr) (h2 : addr ≤ 0x3fff) :
    (m.writeByte addr val).rom_bank &&& 0x1f
      = (if val &&& 0x1f = 0 then 1 else val &&& 0x1f) := by
  rw [MMU.writeByte.eq_def]
  rw [if_neg (by omega : ¬ addr ≤ 0x1fff), if_pos (by omega : addr ≤ 0x3fff)]
  dsimp only
  rw [land31_lor_land96]
  split
  · rfl
  · rw [Nat.land_assoc, (show (0x1f : Nat) &&& 0x1f = 0x1f from rfl)]

theorem claim_C7_witness :
    (0x2000 : Nat) ≤ 0x2000 ∧ (0x2000 : Nat) ≤ 0x3fff ∧
      ((MMU.new.writeByte 0x2000 0x40).rom_bank &&& 0x1f
        = if (0x40 : Nat) &&& 0x1f = 0 then 1 else 0x40 &&& 0x1f) :=
  ⟨by decide, by decide, claim_C7 MMU.new 0x2000 0x40 (by decide) (by decide)⟩

/-- C4 counterexample: with external RAM enabled and the bank offset past
the end of the backing array, `read_byte` returns 0, not the 0xFF
sentinel. -/
theorem claim_C4_cex :
    ({ MMU.new with ram_enabled := true, ram_bank := 1 } : MMU).readByte 0xa000 ≠ 0xff := by
  decide

/-- C4 (amended).  Unmapped `0xfea0..=0xfeff` and disabled external RAM
read as the 0xFF sentinel, but an enabled out-of-range external-RAM read
returns 0 (`unwrap_or(0)`). -/
theorem claim_C4_amended :
    (∀ (m : MMU) (addr : Nat), 0xfea0 ≤ addr → addr ≤ 0xfeff → m.readByte addr = 0xff)
    ∧ (∀ (m : MMU) (addr : Nat), 0xa000 ≤ addr → addr ≤ 0xbfff →
        m.ram_enabled = false → m.readByte addr = 0xff)
    ∧ (∀ (m : MMU) (addr : Nat), 0xa000 ≤ addr → addr ≤ 0xbfff → m.ram_enabled = true →
        m.eram.size ≤ m.ram_bank * 0x2000 + (addr - 0xa000) → m.readByte addr = 0) := by
  refine ⟨fun m addr h1 h2 => ?_, fun m addr h1 h2 hen => ?_, fun m addr h1 h2 hen hsz => ?_⟩
  · rw [MMU.readByte.eq_def]
    rw [if_neg (by omega : ¬ addr ≤ 0x3fff), if_neg (by omega : ¬ addr ≤ 0x7fff),
        if_neg (by omega : ¬ addr ≤ 0x9fff), if_neg (by omega : ¬ addr ≤ 0xbfff),
        if_neg (by omega : ¬ addr ≤ 0xcfff), if_neg (by omega : ¬ addr ≤ 0xdfff),
        if_neg (by omega : ¬ addr ≤ 0xfdff), if_neg (by omega : ¬ addr ≤ 0xfe9f),
        if_pos (by omega : addr ≤ 0xfeff)]
  · rw [MMU.readByte.eq_def]
    rw [if_neg (by omega : ¬ addr ≤ 0x3fff), if_neg (by omega : ¬ addr ≤ 0x7fff),
        if_neg (by omega : ¬ addr ≤ 0x9fff), if_pos (by omega : addr ≤ 0xbfff)]
    rw [if_neg (by simp [hen])]
  · rw [MMU.readByte.eq_def]
    rw [if_neg (by omega : ¬ addr ≤ 0x3fff), if_neg (by omega : ¬ addr ≤ 0x7fff),
        if_neg (by omega : ¬ addr ≤ 0x9fff), if_pos (by omega : addr ≤ 0xbfff)]
    rw [if_pos (by simp [hen])]
    rw [ByteVec.get?, if_neg (by omega)]
    rfl

theorem claim_C4_witness : MMU.new.readByte 0xfea0 = 0xff :=
  claim_C4_amended.1 MMU.new 0xfea0 (by decide) (by decide)

set_option maxRecDepth 8000 in
/-- C9.  Loading the state produced by `save_state` restores all eight
8-bit registers, SP, PC and the cycle accumulator. -/
theorem claim_C9 (gb : GameBoy) :
    (gb.load_state gb.save_state).registers = gb.registers
    ∧ (gb.load_state gb.save_state).cycles = gb.cycles := by
  constructor <;> rfl

set_option maxRecDepth 2000 in
/-- Setting bit 4 in a byte keeps bit 4 set after the `% 256`. -/
theorem byteOrBit4 : ∀ x < 256, ((x ||| 0x10) % 256) &&& 0x10 = 0x10 := by decide

/-- C10.  `press_button` raises IF bit 4 for every bit index and every
state; `release_button` leaves the I/O block (hence IF) untouched. -/
theorem claim_C10 (gb : GameBoy) (bit : Nat) (hio : gb.mmu.io.size = 0x80) :
    (gb.press_button bit).mmu.io.get 0x0f &&& 0x10 = 0x10
    ∧ (gb.release_button bit).mmu.io = gb.mmu.io := by
  constructor
  · show ((gb.mmu.joypad_press bit).io.get 0x0f) &&& 0x10 = 0x10
    rw [MMU.joypad_press]
    dsimp only
    rw [ByteVec.get_set_self _ _ _ (by omega)]
    exact byteOrBit4 _ (ByteVec.get_lt_256 _ _)
  · rfl

theorem claim_C10_witness :
    GameBoy.new.mmu.io.size = 0x80 ∧
      ((GameBoy.new.press_button 4).mmu.io.get 0x0f &&& 0x10 = 0x10
        ∧ (GameBoy.new.release_button 4).mmu.io = GameBoy.new.mmu.io) :=
  ⟨rfl, claim_C10 GameBoy.new 4 rfl⟩

set_option maxRecDepth 2000 in
/-- Setting bit 2 in a byte keeps bit 2 set after the `% 256`. -/
theorem byteOrBit2 : ∀ x < 256, ((x ||| 0x04) % 256) &&& 0x04 = 0x04 := by decide

/-- C8.  With the timer enabled and the tick threshold reached,
`Timer::step` reloads TIMA from TMA and raises IF bit 2 on overflow from
0xFF, and on a plain tick only increments TIMA and leaves IF unchanged. -/
theorem claim_C8 (t : Timer) (cycles : Nat) (io : ByteVec) (hio : io.size = 0x80)
    (htac : io.get 0x07 &&& 0x04 ≠ 0)
    (htick : [1024, 16, 64, 256].getD (io.get 0x07 &&& 0x03) 0 ≤ t.tima_counter + cycles) :
    (io.get 0x05 = 0xff →
        (Timer.step t cycles io).2.get 0x05 = io.get 0x06
          ∧ (Timer.step t cycles io).2.get 0x0f &&& 0x04 = 0x04)
    ∧ (io.get 0x05 < 0xff →
        (Timer.step t cycles io).2.get 0x05 = io.get 0x05 + 1
          ∧ (Timer.step t cycles io).2.get 0x0f = io.get 0x0f) := by
  rw [Timer.step]
  by_cases hdiv : t.div_counter + cycles ≥ 256
  · rw [if_pos hdiv]
    dsimp only
    rw [ByteVec.get_set_ne _ _ _ _ (by omega : (0x07:Nat) ≠ 0x04)]
    rw [if_pos htac, if_pos htick]
    rw [ByteVec.get_set_ne _ _ _ _ (by omega : (0x05:Nat) ≠ 0x04)]
    constructor
    · intro hff
      rw [if_pos hff]
      dsimp only
      constructor
      · rw [ByteVec.get_set_ne _ _ _ _ (by omega : (0x05:Nat) ≠ 0x0f),
          ByteVec.get_set_self _ _ _ (by simp [ByteVec.size_set, hio]),
          ByteVec.get_set_ne _ _ _ _ (by omega : (0x06:Nat) ≠ 0x04),
          Nat.mod_eq_of_lt (ByteVec.get_lt_256 _ _)]
      · rw [ByteVec.get_set_self _ _ _ (by simp [ByteVec.size_set, hio])]
        exact byteOrBit2 _ (ByteVec.get_lt_256 _ _)
    · intro hlt
      rw [if_neg (by omega : ¬ io.get 0x05 = 0xff)]
      dsimp only
      constructor
      · rw [ByteVec.get_set_self _ _ _ (by simp [ByteVec.size_set, hio]),
          Nat.mod_mod_of_dvd _ (dvd_refl 256), Nat.mod_eq_of_lt (by omega)]
      · rw [ByteVec.get_set_ne _ _ _ _ (by omega : (0x0f:Nat) ≠ 0x05),
          ByteVec.get_set_ne _ _ _ _ (by omega : (0x0f:Nat) ≠ 0x04)]
  · rw [if_neg hdiv]
    dsimp only
    rw [if_pos htac, if_pos htick]
    constructor
    · intro hff
      rw [if_pos hff]
      dsimp only
      constructor
      · rw [ByteVec.get_set_ne _ _ _ _ (by omega : (0x05:Nat) ≠ 0x0f),
          ByteVec.get_set_self _ _ _ (by omega),
          Nat.mod_eq_of_lt (ByteVec.get_lt_256 _ _)]
      · rw [ByteVec.get_set_self _ _ _ (by simp [ByteVec.size_set, hio])]
        exact byteOrBit2 _ (ByteVec.get_lt_256 _ _)
    · intro hlt
      rw [if_neg (by omega : ¬ io.get 0x05 = 0xff)]
      dsimp only
      constructor
      · rw [ByteVec.get_set_self _ _ _ (by omega),
          Nat.mod_mod_of_dvd _ (dvd_refl 256), Nat.mod_eq_of_lt (by omega)]
      · rw [ByteVec.get_set_ne _ _ _ _ (by omega : (0x0f:Nat) ≠ 0x05)]

theorem claim_C8_witness :
    (Timer.step ⟨0, 0⟩ 16 ((ByteVec.zeros 0x80).set 0x07 0x05)).2.get 0x05
        = ((ByteVec.zeros 0x80).set 0x07 0x05).get 0x05 + 1
    ∧ (Timer.step ⟨0, 0⟩ 16 ((ByteVec.zeros 0x80).set 0x07 0x05)).2.get 0x0f
        = ((ByteVec.zeros 0x80).set 0x07 0x05).get 0x0f :=
  (claim_C8 ⟨0, 0⟩ 16 _ (by decide) (by decide) (by decide)).2 (by decide)

/-- C5.  With the stack pointer below the 0x8100 safety threshold,
`handle_interrupt` clears the whole IF register, pushes nothing and does
not jump: PC and SP are unchanged. -/
theorem claim_C5 (gb : GameBoy) (interrupt : Nat)
    (hsp : gb.registers.sp < 0x8100) (hio : gb.mmu.io.size = 0x80) :
    (gb.handle_interrupt interrupt).mmu.io.get 0x0f = 0
    ∧ (gb.handle_interrupt interrupt).registers.pc = gb.registers.pc
    ∧ (gb.handle_interrupt interrupt).registers.sp = gb.registers.sp := by
  rw [GameBoy.handle_interrupt]
  dsimp only
  rw [if_pos hsp]
  dsimp only
  rw [MMU.writeByte_ff0f, MMU.writeByte_ff0f]
  dsimp only
  refine ⟨?_, rfl, rfl⟩
  rw [ByteVec.set_set_self, ByteVec.get_set_self _ _ _ (by omega)]

theorem claim_C5_witness :
    (({ GameBoy.new with
          registers := { Registers.new with sp := 0x8000 } } : GameBoy).handle_interrupt
        0).mmu.io.get 0x0f = 0
    ∧ (({ GameBoy.new with
          registers := { Registers.new with sp := 0x8000 } } : GameBoy).handle_interrupt
        0).registers.pc
        = ({ GameBoy.new with
              registers := { Registers.new with sp := 0x8000 } } : GameBoy).registers.pc
    ∧ (({ GameBoy.new with
          registers := { Registers.new with sp := 0x8000 } } : GameBoy).handle_interrupt
        0).registers.sp
        = ({ GameBoy.new with
              registers := { Registers.new with sp := 0x8000 } } : GameBoy).registers.sp :=
  claim_C5 _ 0 (by decide) (by decide)

/-- Masking by a value with bit 0 clear clears bit 0. -/
theorem land_bit0_zero (x y : Nat) (hy : y &&& 1 = 0) : (x &&& y) &&& 1 = 0 := by
  rw [Nat.land_assoc, hy]
  simp

/-- Complementing a byte with bit 0 set clears bit 0. -/
theorem xor255_bit0 (z : Nat) (hz : z &&& 1 = 1) : (z ^^^ 255) &&& 1 = 0 := by
  rw [Nat.and_one_is_mod] at hz ⊢
  have h1 : (z ^^^ 255).testBit 0 = false := by
    rw [Nat.testBit_xor]
    simp [Nat.testBit_zero, hz]
  rw [Nat.testBit_zero] at h1
  have := of_decide_eq_false h1
  omega

/-- C3 counterexample: in a state where d-pad Right (bit 0) is latched
pressed, pressing A (bit 4) and reading JOYP with select bit 0x20 clear
reports bit 0 *set*, not cleared. -/
theorem claim_C3_cex :
    (((GameBoy.new.press_button 0).press_button 4).mmu.io.get 0x00 &&& 0x20 = 0)
    ∧ ((GameBoy.new.press_button 0).press_button 4).mmu.read_io 0xff00 &&& 0x01 ≠ 0 := by
  constructor
  · decide
  · decide

/-- C3 (amended).  After `press_button 4`, a JOYP read with select bit
0x20 clear reports bit 0 cleared provided the d-pad Right latch (bit 0)
is currently released; the low nibble is composed from the *complement*
of the active-low latch, so a pressed Right latch flips that bit. -/
theorem claim_C3_amended (gb : GameBoy)
    (h20 : gb.mmu.io.get 0x00 &&& 0x20 = 0)
    (h0 : gb.mmu.joypad_buttons &&& 0x01 = 0x01) :
    (gb.press_button 4).mmu.read_io 0xff00 &&& 0x01 = 0 := by
  show (gb.mmu.joypad_press 4).read_io 0xff00 &&& 0x01 = 0
  rw [MMU.joypad_press]
  dsimp only
  rw [MMU.read_io]
  dsimp only
  rw [if_pos (by decide : (0xff00 : Nat) - 0xff00 = 0x00)]
  rw [ByteVec.get_set_ne _ _ _ _ (by omega : (0x00:Nat) ≠ 0x0f)]
  rw [if_pos (show gb.mmu.io.get 0x00 &&& 0x20 = 0 from h20)]
  apply land_bit0_zero
  apply xor255_bit0
  rw [Nat.land_assoc, (show (0x0F : Nat) &&& 1 = 1 from rfl)]
  rw [Nat.land_assoc, (show ((1 <<< 4) ^^^ 0xff : Nat) &&& 1 = 1 from rfl)]
  exact h0

theorem claim_C3_witness :
    (GameBoy.new.press_button 4).mmu.read_io 0xff00 &&& 0x01 = 0 :=
  claim_C3_amended GameBoy.new (by decide) (by decide)

namespace MMU

/-- `ByteVec.get` version of `writeByte_get?_0f`. -/
theorem writeByte_get_0f (m : MMU) (addr val : Nat) (hne : addr ≠ 0xff0f) :
    (m.writeByte addr val).io.get 0x0f = m.io.get 0x0f := by
  unfold ByteVec.get
  rw [MMU.writeByte_get?_0f _ _ _ hne]

end MMU

/-- C2 (amended).  With IME on and the stack pointer at least 0x8100 (and
away from the two addresses whose push would overwrite IF), the CPU step
dispatches the pending interrupt with the lowest bit index and clears
exactly that request bit. -/
theorem claim_C2_amended (gb : GameBoy) (i : Nat)
    (hhalt : gb.halted = false) (hsched : gb.ime_scheduled = false) (hime : gb.ime = true)
    (hci : gb.check_interrupts = some i)
    (hsp1 : 0x8100 ≤ gb.registers.sp) (hsp2 : gb.registers.sp ≤ 0xffff)
    (hsp3 : gb.registers.sp ≠ 0xff10) (hsp4 : gb.registers.sp ≠ 0xff11)
    (hio : gb.mmu.io.size = 0x80) :
    (∀ j, j < i → (gb.mmu.readByte 0xffff &&& gb.mmu.readByte 0xff0f) &&& (1 <<< j) = 0)
    ∧ (gb.mmu.readByte 0xffff &&& gb.mmu.readByte 0xff0f) &&& (1 <<< i) ≠ 0
    ∧ (gb.step_cpu).2.mmu.io.get 0x0f = gb.mmu.io.get 0x0f &&& ((1 <<< i) ^^^ 0xff) := by
  have part3 :
      (gb.step_cpu).2.mmu.io.get 0x0f = gb.mmu.io.get 0x0f &&& ((1 <<< i) ^^^ 0xff) := by
    rw [GameBoy.step_cpu]
    rw [if_neg (show ¬ (gb.halted = true) by simp [hhalt])]
    dsimp only
    rw [if_neg (show ¬ (gb.ime_scheduled = true) by simp [hsched])]
    rw [if_pos hime, hci]
    dsimp only
    rw [GameBoy.handle_interrupt]
    dsimp only
    rw [if_neg (by omega : ¬ gb.registers.sp < 0x8100)]
    rw [GameBoy.push_word]
    dsimp only
    rw [GameBoy.addCycles]
    dsimp only
    have ha1 : (gb.registers.sp + 65536 - 1) % 65536 ≠ 0xff0f := by omega
    have ha2 : ((gb.registers.sp + 65536 - 1) % 65536 + 65536 - 1) % 65536 ≠ 0xff0f := by
      omega
    rw [MMU.writeByte_get_0f _ _ _ ha2, MMU.writeByte_get_0f _ _ _ ha1,
        MMU.writeByte_ff0f]
    dsimp only
    rw [ByteVec.get_set_self _ _ _ (by omega), MMU.readByte_ff0f]
    exact Nat.mod_eq_of_lt (Nat.lt_of_le_of_lt Nat.and_le_left (ByteVec.get_lt_256 _ _))
  rw [GameBoy.check_interrupts] at hci
  refine And.imp id (fun h => ⟨h, part3⟩) ?_
  split_ifs at hci with c0 c1 c2 c3 c4 c5
  · injection hci with h
    subst h
    exact ⟨fun j hj => absurd hj (by omega), c1⟩
  · injection hci with h
    subst h
    refine ⟨fun j hj => ?_, c2⟩
    interval_cases j
    exact not_ne_iff.mp c1
  · injection hci with h
    subst h
    refine ⟨fun j hj => ?_, c3⟩
    interval_cases j
    · exact not_ne_iff.mp c1
    · exact not_ne_iff.mp c2
  · injection hci with h
    subst h
    refine ⟨fun j hj => ?_, c4⟩
    interval_cases j
    · exact not_ne_iff.mp c1
    · exact not_ne_iff.mp c2
    · exact not_ne_iff.mp c3
  · injection hci with h
    subst h
    refine ⟨fun j hj => ?_, c5⟩
    interval_cases j
    · exact not_ne_iff.mp c1
    · exact not_ne_iff.mp c2
    · exact not_ne_iff.mp c3
    · exact not_ne_iff.mp c4

set_option maxRecDepth 4000 in
/-- C2 counterexample: with SP below the safety threshold, dispatching
the lowest pending interrupt (bit 1) also clears the other pending
request bit (bit 2), so "only that one request bit" fails. -/
theorem claim_C2_cex :
    (({ GameBoy.new with ime := true, registers := { Registers.new with sp := 0x8000 }, mmu := { MMU.new with ie := 0x1f, io := MMU.resetIO.set 0x0f 0x06 } } : GameBoy).check_interrupts = some 1)
    ∧ (({ GameBoy.new with ime := true, registers := { Registers.new with sp := 0x8000 }, mmu := { MMU.new with ie := 0x1f, io := MMU.resetIO.set 0x0f 0x06 } } : GameBoy).mmu.io.get 0x0f &&& 0x04 ≠ 0)
    ∧ ((({ GameBoy.new with ime := true, registers := { Registers.new with sp := 0x8000 }, mmu := { MMU.new with ie := 0x1f, io := MMU.resetIO.set 0x0f 0x06 } } : GameBoy).step_cpu).2.mmu.io.get 0x0f &&& 0x04 = 0) := by
  refine ⟨by decide, by decide, by decide⟩

set_option maxRecDepth 4000 in
theorem claim_C2_witness :
    (({ GameBoy.new with ime := true, registers := Registers.new, mmu := { MMU.new with ie := 0x1f, io := MMU.resetIO.set 0x0f 0x06 } } : GameBoy).step_cpu).2.mmu.io.get 0x0f
      = ({ GameBoy.new with ime := true, registers := Registers.new, mmu := { MMU.new with ie := 0x1f, io := MMU.resetIO.set 0x0f 0x06 } } : GameBoy).mmu.io.get 0x0f &&& ((1 <<< 1) ^^^ 0xff) :=
  (claim_C2_amended _ 1 rfl rfl rfl (by decide) (by decide) (by decide) (by decide)
    (by decide) (by decide)).2.2

theorem c1_ci (k : Nat) : (c1GbK k).check_interrupts = none := by
  rw [GameBoy.check_interrupts]
  rw [MMU.readByte_ffff, MMU.readByte_ff0f]
  rw [show (c1GbK k).mmu.ie = 0 from rfl]
  rw [if_pos (by simp : (0 : Nat) &&& (c1GbK k).mmu.io.get 0x0f = 0)]

theorem c1_cpu (k : Nat) : (c1GbK k).step_cpu = (4, c1GbK k) := by
  rw [GameBoy.step_cpu]
  rw [if_pos (show (c1GbK k).halted = true from rfl)]
  dsimp only
  rw [c1_ci]
  rw [if_neg (by simp : ¬ (none : Option Nat).isSome = true)]

theorem c1_io_get04 (k : Nat) : (c1Io k).get 0x04 = 4 * k / 256 % 256 := by
  rw [c1Io, ByteVec.get_set_self _ _ _ (by decide), Nat.mod_mod_of_dvd _ (dvd_refl 256)]

theorem c1_io_get07 (k : Nat) : (c1Io k).get 0x07 = 0 := by
  rw [c1Io, ByteVec.get_set_ne _ _ _ _ (by decide)]
  decide

theorem c1_io_get40 (k : Nat) : (c1Io k).get 0x40 = 0 := by
  rw [c1Io, ByteVec.get_set_ne _ _ _ _ (by decide)]
  decide

theorem c1_timer (k : Nat) :
    Timer.step ⟨4 * k % 256, 0⟩ 4 (c1Io k) = (⟨4 * (k + 1) % 256, 0⟩, c1Io (k + 1)) := by
  rw [Timer.step]
  dsimp only
  by_cases hd : 4 * k % 256 + 4 ≥ 256
  · rw [if_pos hd]
    dsimp only
    rw [ByteVec.get_set_ne _ _ _ _ (by decide : (0x07:Nat) ≠ 0x04), c1_io_get07]
    rw [if_neg (by decide : ¬ (0 : Nat) &&& 0x04 ≠ 0)]
    rw [c1_io_get04]
    rw [c1Io, c1Io, ByteVec.set_set_self]
    have h1 : 4 * k % 256 + 4 - 256 = 4 * (k + 1) % 256 := by omega
    have h2 : (4 * k / 256 % 256 + 1) % 256 = 4 * (k + 1) / 256 % 256 := by omega
    rw [h1, h2]
  · rw [if_neg hd]
    dsimp only
    rw [c1_io_get07]
    rw [if_neg (by decide : ¬ (0 : Nat) &&& 0x04 ≠ 0)]
    have h1 : 4 * k % 256 + 4 = 4 * (k + 1) % 256 := by omega
    have h2 : 4 * k / 256 % 256 = 4 * (k + 1) / 256 % 256 := by omega
    rw [h1, c1Io, c1Io, h2]

theorem c1_apu (k : Nat) (hk : 4 * k < 70224) : APU.step ⟨4 * k⟩ 4 = ⟨4 * (k + 1)⟩ := by
  rw [APU.step]
  dsimp only
  rw [Nat.mod_eq_of_lt (by omega)]
  rw [if_neg (by omega : ¬ 4 * k + 4 > 1 <<< 20)]
  have h : 4 * k + 4 = 4 * (k + 1) := by omega
  rw [h]

theorem c1_ppu (k : Nat) (p : PPU) :
    PPU.step p (c1Mmu k) 4 = (false, p, c1Mmu k) := by
  rw [PPU.step]
  rw [show (c1Mmu k).io = c1Io k from rfl, c1_io_get40]
  rw [if_pos (by decide : (0 : Nat) &&& 0x80 = 0)]

theorem c1_step (k : Nat) (hk : 4 * k < 70224) :
    GameBoy.frameBody (c1State k) = c1State (k + 1) := by
  rw [c1State, c1State]
  rw [GameBoy.frameBody]
  dsimp only
  rw [c1_cpu]
  dsimp only
  rw [show (c1GbK k).timer = (⟨4 * k % 256, 0⟩ : Timer) from rfl,
      show (c1GbK k).mmu = c1Mmu k from rfl,
      show (c1Mmu k).io = c1Io k from rfl]
  rw [c1_timer]
  dsimp only
  rw [show (c1GbK k).apu = (⟨4 * k⟩ : APU) from rfl]
  rw [c1_apu k hk]
  rw [show (c1GbK k).ppu = PPU.new from rfl]
  rw [show ({ c1Mmu k with io := c1Io (k + 1) } : MMU) = c1Mmu (k + 1) from rfl]
  rw [c1_ppu]
  simp only [Prod.mk.injEq]
  exact ⟨rfl, by omega, rfl⟩

/-- The `run_frame` loop only stops (with fuel to spare) once the local
frame-cycle counter has reached the 70224 budget. -/
theorem runFrameLoop_budget :
    ∀ (fuel : Nat) (s r : GameBoy × Nat × Bool),
      GameBoy.runFrameLoop fuel s = some r → 70224 ≤ r.2.1 := by
  intro fuel
  induction fuel with
  | zero => intro s r h; exact absurd h (by simp [GameBoy.runFrameLoop])
  | succ n ih =>
    intro s r h
    rw [GameBoy.runFrameLoop] at h
    by_cases hc : s.2.1 < 70224
    · rw [if_pos hc] at h
      exact ih _ _ h
    · rw [if_neg hc] at h
      injection h with h2
      subst h2
      omega

theorem c1_loop :
    ∀ (j k : Nat), k + j = 17556 →
      GameBoy.runFrameLoop (j + 1) (c1State k) = some (c1State 17556) := by
  intro j
  induction j with
  | zero =>
    intro k hk
    have hk17 : k = 17556 := by omega
    subst hk17
    rw [GameBoy.runFrameLoop]
    rw [if_neg (by rw [c1State]; dsimp only; omega)]
  | succ j ih =>
    intro k hk
    rw [GameBoy.runFrameLoop]
    have hlt : (c1State k).2.1 < 70224 := by rw [c1State]; dsimp only; omega
    rw [if_pos hlt]
    rw [c1_step k (by rw [c1State] at hlt; exact hlt)]
    exact ih (k + 1) (by omega)

/-- Writing back a byte a `ByteVec` already holds is the identity. -/
theorem ByteVec.set_of_get? (a : ByteVec) (i v : Nat) (h : a.get? i = some (v % 256)) :
    a.set i v = a := by
  unfold ByteVec.get? at h
  by_cases hi : i < a.size
  · rw [if_pos hi] at h
    injection h with hbyte
    unfold ByteVec.set
    rw [if_pos hi]
    have hd : a.data % (1 <<< (8 * i)) + (v % 256) * (1 <<< (8 * i))
        + (a.data >>> (8 * (i + 1))) * (1 <<< (8 * (i + 1))) = a.data := by
      rw [ByteVec.setData_spec, ← hbyte, Nat.shiftRight_eq_div_pow]
      rw [Nat.mod_add_div (a.data / 2 ^ (8 * i)) 256]
      exact Nat.mod_add_div a.data _
    rw [hd]
  · rw [if_neg hi] at h
    exact absurd h (by simp)

theorem c1_io0 : c1Io 0 = MMU.resetIO.set 0x40 0 := by
  rw [c1Io, (by norm_num : 4 * 0 / 256 % 256 = 0)]
  exact ByteVec.set_of_get? _ _ _ (by decide)

theorem c1_state0 : c1State 0 = (c1Gb, 0, false) := by
  have hgb : c1GbK 0 = c1Gb := by rw [c1GbK, c1Mmu, c1_io0]; rfl
  rw [c1State, hgb]

theorem c1_run :
    GameBoy.runFrameLoop 17557 (c1Gb, 0, false) = some (c1State 17556) := by
  have h := c1_loop 17556 0 (by omega)
  rw [c1_state0] at h
  exact h

theorem c1_runframe : c1Gb.run_frame 17557 = some ((c1State 17556).1, false) := by
  rw [GameBoy.run_frame, if_neg (by decide : ¬ c1Gb.running = false), c1_run]
  rfl

/-- C1 (amended).  When the `run_frame` loop completes, `run_frame`
returns its final state and the *local* frame-cycle counter has reached
at least 70224; the `cycles` field need not advance by 70224. -/
theorem claim_C1_amended (fuel : Nat) (gb : GameBoy) (s : GameBoy × Nat × Bool)
    (hrun : gb.running = true)
    (h : GameBoy.runFrameLoop fuel (gb, 0, false) = some s) :
    gb.run_frame fuel = some (s.1, s.2.2) ∧ 70224 ≤ s.2.1 := by
  constructor
  · rw [GameBoy.run_frame, if_neg (by simp [hrun]), h]
    rfl
  · exact runFrameLoop_budget fuel _ s h

theorem claim_C1_witness :
    c1Gb.run_frame 17557 = some ((c1State 17556).1, (c1State 17556).2.2)
    ∧ 70224 ≤ (c1State 17556).2.1 :=
  claim_C1_amended 17557 c1Gb (c1State 17556) rfl c1_run

/-- C1 counterexample: a halted (but running) machine completes a whole
`run_frame` call with the `cycles` field not advancing at all. -/
theorem claim_C1_cex :
    c1Gb.run_frame 17557 = some ((c1State 17556).1, false)
    ∧ (c1State 17556).1.cycles = 0 ∧ c1Gb.cycles = 0 :=
  ⟨c1_runframe, rfl, rfl⟩

section C6Proofs

set_option maxHeartbeats 1000000
set_option maxRecDepth 4000

/-- Two naturals with the same base-256 digit stream are equal. -/
theorem eq_of_bytes_eq :
    ∀ (n d1 d2 : Nat), d1 + d2 ≤ n →
      (∀ i, (d1 >>> (8 * i)) % 256 = (d2 >>> (8 * i)) % 256) → d1 = d2 := by
  intro n
  induction n with
  | zero => intro d1 d2 h0 _; omega
  | succ n ih =>
    intro d1 d2 hle h
    have h0 := h 0
    rw [Nat.mul_zero, Nat.shiftRight_zero, Nat.shiftRight_zero] at h0
    by_cases hsmall : d1 < 256 ∧ d2 < 256
    · omega
    · have hdiv : d1 / 256 = d2 / 256 := by
        apply ih (d1 / 256) (d2 / 256) (by omega)
        intro i
        have hi := h (i + 1)
        rw [show 8 * (i + 1) = 8 + 8 * i by ring, Nat.shiftRight_add, Nat.shiftRight_add] at hi
        simp only [show ∀ d : Nat, d >>> 8 = d / 256 from fun d => by
          rw [Nat.shiftRight_eq_div_pow]] at hi
        exact hi
      omega

namespace ByteVec

/-- Byte `j` of the payload after `set i v` (for an in-bounds `i`):
byte `i` becomes `v % 256`, every other byte is untouched. -/
theorem data_byte_set (a : ByteVec) (i v j : Nat) (hi : i < a.size) :
    ((a.set i v).data >>> (8 * j)) % 256
    = if j = i then v % 256 else (a.data >>> (8 * j)) % 256 := by
  unfold ByteVec.set
  rw [if_pos hi]
  dsimp only
  rw [setData_spec, Nat.shiftRight_eq_div_pow]
  by_cases hj : j = i
  · subst hj
    rw [if_pos rfl]
    rw [modAdd_div _ _ _ (Nat.pos_pow_of_pos _ (by norm_num)), Nat.mul_comm 256,
      Nat.add_mul_mod_self_right, Nat.mod_mod_of_dvd _ dvd_rfl]
  · rw [if_neg hj]
    rcases Nat.lt_or_ge j i with hlt | hge
    · rw [setData_div_lt _ _ _ _ hlt, ← Nat.shiftRight_eq_div_pow]
    · rw [setData_div_gt _ _ _ _ (by omega), ← Nat.shiftRight_eq_div_pow]

theorem set_oob (a : ByteVec) (i v : Nat) (h : ¬ i < a.size) : a.set i v = a := by
  unfold ByteVec.set
  rw [if_neg h]

theorem eq_of_parts (a b : ByteVec) (h1 : a.size = b.size) (h2 : a.data = b.data) :
    a = b := by
  cases a
  cases b
  cases h1
  cases h2
  rfl

/-- Writes at distinct indices commute. -/
theorem set_comm (a : ByteVec) (i j v w : Nat) (hij : i ≠ j) :
    (a.set i v).set j w = (a.set j w).set i v := by
  by_cases hi : i < a.size
  · by_cases hj : j < a.size
    · apply eq_of_parts
      · rw [size_set, size_set, size_set, size_set]
      · apply eq_of_bytes_eq (((a.set i v).set j w).data + ((a.set j w).set i v).data) _ _
          (Nat.le_refl _)
        intro t
        rw [data_byte_set _ _ _ _ (by rw [size_set]; exact hj),
            data_byte_set _ _ _ _ hi,
            data_byte_set _ _ _ _ (by rw [size_set]; exact hi),
            data_byte_set _ _ _ _ hj]
        split_ifs <;> first | rfl | omega
    · rw [set_oob _ j w (by rw [size_set]; exact hj), set_oob _ j w hj]
  · by_cases hj : j < a.size
    · rw [set_oob _ i v hi, set_oob _ i v (by rw [size_set]; exact hi)]
    · rw [set_oob _ j w (by rw [size_set]; exact hj), set_oob _ i v hi,
        set_oob _ i v (by rw [size_set]; exact hi), set_oob _ j w hj]

end ByteVec

theorem c6Stat_lt (k : Nat) : c6Stat k < 256 := by
  rw [c6Stat]; split_ifs <;> omega

theorem c6IF_lt (k : Nat) : c6IF k < 256 := by
  rw [c6IF]; split_ifs <;> omega

theorem c6IOd_get40 (k d : Nat) : (c6Iod k d).get 0x40 = 0x91 := by
  rw [c6Iod, ByteVec.get_set_ne _ _ _ _ (by decide), ByteVec.get_set_ne _ _ _ _ (by decide),
    ByteVec.get_set_ne _ _ _ _ (by decide), ByteVec.get_set_ne _ _ _ _ (by decide)]
  decide

theorem c6IOd_get45 (k d : Nat) : (c6Iod k d).get 0x45 = 0 := by
  rw [c6Iod, ByteVec.get_set_ne _ _ _ _ (by decide), ByteVec.get_set_ne _ _ _ _ (by decide),
    ByteVec.get_set_ne _ _ _ _ (by decide), ByteVec.get_set_ne _ _ _ _ (by decide)]
  decide

theorem c6IOd_get07 (k d : Nat) : (c6Iod k d).get 0x07 = 0 := by
  rw [c6Iod, ByteVec.get_set_ne _ _ _ _ (by decide), ByteVec.get_set_ne _ _ _ _ (by decide),
    ByteVec.get_set_ne _ _ _ _ (by decide), ByteVec.get_set_ne _ _ _ _ (by decide)]
  decide

theorem c6IOd_get44 (k d : Nat) : (c6Iod k d).get 0x44 = k % 154 := by
  rw [c6Iod, ByteVec.get_set_ne _ _ _ _ (by decide), ByteVec.get_set_ne _ _ _ _ (by decide),
    ByteVec.get_set_self _ _ _ (by rw [ByteVec.size_set]; decide),
    Nat.mod_eq_of_lt (by omega)]

theorem c6IOd_get41 (k d : Nat) : (c6Iod k d).get 0x41 = c6Stat k := by
  rw [c6Iod, ByteVec.get_set_ne _ _ _ _ (by decide),
    ByteVec.get_set_self _ _ _ (by rw [ByteVec.size_set, ByteVec.size_set]; decide),
    Nat.mod_eq_of_lt (c6Stat_lt k)]


theorem c6IOd_get0f (k d : Nat) : (c6Iod k d).get 0x0f = c6IF k := by
  rw [c6Iod,
    ByteVec.get_set_self _ _ _
      (by rw [ByteVec.size_set, ByteVec.size_set, ByteVec.size_set]; decide),
    Nat.mod_eq_of_lt (c6IF_lt k)]

/-- Re-canonicalise the LY/STAT writes a PPU step performs on a C6 I/O
block. -/
theorem c6IOd_update (k d a b : Nat) :
    ((c6Iod k d).set 0x44 a).set 0x41 b
    = (((MMU.resetIO.set 0x04 d).set 0x44 a).set 0x41 b).set 0x0f (c6IF k) := by
  rw [c6Iod]
  rw [ByteVec.set_comm _ 0x0f 0x44 _ _ (by decide)]
  rw [ByteVec.set_comm _ 0x41 0x44 _ _ (by decide)]
  rw [ByteVec.set_set_self]
  rw [ByteVec.set_comm _ 0x0f 0x41 _ _ (by decide)]
  rw [ByteVec.set_set_self]

theorem c6IF_succ (k : Nat) (h : ¬ k % 154 = 143) : c6IF k = c6IF (k + 1) := by
  rw [c6IF, c6IF]
  split_ifs <;> omega

/-- One PPU step of the C6 run, with the DIV byte held abstract. -/
theorem c6_ppu (k d : Nat) (hk : k ≤ 17555) :
    PPU.step (c6Ppu k) { MMU.new with io := c6Iod k d } 4
    = (decide ((k + 1) % 154 = 144), c6Ppu (k + 1),
        { MMU.new with io := c6Iod (k + 1) d }) := by
  have hppu : ({ c6Ppu k with
      scanline_counter := (c6Ppu k).scanline_counter + 4 - 456 } : PPU) = c6Ppu (k + 1) := by
    rw [c6Ppu, c6Ppu]
    dsimp only
    rw [show 8000000 - 452 * k + 4 - 456 = 8000000 - 452 * (k + 1) by omega]
  rw [PPU.step]
  try dsimp only
  rw [c6IOd_get40]
  rw [if_neg (by decide : ¬ ((0x91 : Nat) &&& 0x80 = 0))]
  try dsimp only
  rw [PPU.get_ly]
  try dsimp only
  rw [c6IOd_get44]
  rw [if_pos (show 456 ≤ (c6Ppu k).scanline_counter + 4 by rw [c6Ppu]; dsimp only; omega)]
  rw [show (k % 154 + 1) % 154 = (k + 1) % 154 by omega]
  rw [PPU.set_ly]
  try dsimp only
  rw [PPU.check_lyc]
  try dsimp only
  rw [ByteVec.get_set_self _ _ _ (by rw [c6Iod, ByteVec.size_set, ByteVec.size_set, ByteVec.size_set, ByteVec.size_set]; decide)]
  rw [Nat.mod_eq_of_lt (show (k + 1) % 154 < 256 by omega)]
  rw [ByteVec.get_set_ne _ _ _ _ (by decide : (0x45 : Nat) ≠ 0x44), c6IOd_get45]
  rw [ByteVec.get_set_ne _ _ _ _ (by decide : (0x41 : Nat) ≠ 0x44), c6IOd_get41]
  by_cases h0 : (k + 1) % 154 = 0
  · -- wrapping step: old LY 153, coincidence with LYC=0, mode set to 2
    have hr : k % 154 = 153 := by omega
    have hk0 : ¬ k = 0 := by omega
    have hst : c6Stat k = 1 := by rw [c6Stat]; rw [if_neg hk0, if_neg (by omega), if_neg (by omega)]
    rw [if_pos h0, hst]
    rw [if_neg (by decide : ¬ ((1 : Nat) &&& 0x40 ≠ 0))]
    rw [if_neg (show ¬ (k + 1) % 154 = 144 by omega)]
    rw [if_pos h0]
    rw [PPU.set_mode]
    try dsimp only
    rw [ByteVec.get_set_self _ _ _ (by rw [ByteVec.size_set, c6Iod, ByteVec.size_set, ByteVec.size_set, ByteVec.size_set, ByteVec.size_set]; decide)]
    rw [if_pos (by decide : (2 : Nat) ≠ 1)]
    rw [show ((1 : Nat) ||| 4) % 256 = 5 by decide]
    rw [if_neg (by decide : ¬ ((5 : Nat) >>> (2 + 3) &&& 1 ≠ 0))]
    rw [ByteVec.set_set_self]
    rw [PPU.stepModeUpdate]
    rw [if_neg (show ¬ k % 154 < 144 by omega)]
    rw [show ((5 : Nat) &&& 0xfc ||| 2 &&& 0x03) = 6 by decide]
    rw [c6IOd_update]
    rw [c6IF_succ k (by omega)]
    rw [hppu]
    rw [decide_eq_false (show ¬ (k + 1) % 154 = 144 by omega)]
    conv_rhs => rw [c6Iod]
    rw [show c6Stat (k + 1) = 6 from by rw [c6Stat]; rw [if_neg (by omega), if_pos h0]]
  · rw [if_neg h0]
    by_cases h144 : (k + 1) % 154 = 144
    · -- V-blank entry: old LY 143
      have hr : k % 154 = 143 := by omega
      have hst : c6Stat k = 0 := by
        rw [c6Stat]; rw [if_neg (by omega), if_neg (by omega), if_pos (by omega)]
      rw [hst]
      rw [if_pos h144]
      rw [PPU.set_mode]
      try dsimp only
      rw [ByteVec.get_set_self _ _ _ (by rw [ByteVec.size_set, c6Iod, ByteVec.size_set, ByteVec.size_set, ByteVec.size_set, ByteVec.size_set]; decide)]
      rw [if_neg (by decide : ¬ ((1 : Nat) ≠ 1))]
      rw [if_neg (by decide : ¬ ((0 : Nat) ≠ 0))]
      rw [show ((0 : Nat) &&& 0xfb) % 256 = 0 by decide]
      rw [show ((0 : Nat) &&& 0xfc ||| 1 &&& 0x03) = 1 by decide]
      rw [ByteVec.set_set_self]
      rw [PPU.request_interrupt]
      try dsimp only
      rw [MMU.readByte_ff0f, MMU.writeByte_ff0f]
      try dsimp only
      rw [ByteVec.get_set_ne _ _ _ _ (by decide : (0x0f : Nat) ≠ 0x41),
          ByteVec.get_set_ne _ _ _ _ (by decide : (0x0f : Nat) ≠ 0x44), c6IOd_get0f]
      rw [c6IOd_update]
      rw [ByteVec.set_set_self]
      rw [show c6IF k ||| 1 <<< 0 = c6IF (k + 1) by
        rw [c6IF, c6IF]
        rw [if_pos (show 144 ≤ k + 1 by omega)]
        split_ifs <;> decide]
      rw [hppu]
      rw [decide_eq_true h144]
      conv_rhs => rw [c6Iod]
      rw [show c6Stat (k + 1) = 1 from by
        rw [c6Stat]; rw [if_neg (by omega), if_neg (by omega), if_neg (by omega)]]
    · -- ordinary step
      rw [if_neg h0, if_neg h144]
      rw [PPU.stepModeUpdate]
      by_cases hly : k % 154 < 144
      · rw [if_pos hly]
        rw [if_neg (show ¬ (c6Ppu k).scanline_counter + 4 - 456 < 80 by
          rw [c6Ppu]; dsimp only; omega)]
        rw [if_neg (show ¬ (c6Ppu k).scanline_counter + 4 - 456 < 80 + 172 by
          rw [c6Ppu]; dsimp only; omega)]
        rw [PPU.get_mode]
        rw [ByteVec.get_set_self _ _ _ (by rw [ByteVec.size_set, c6Iod, ByteVec.size_set, ByteVec.size_set, ByteVec.size_set, ByteVec.size_set]; decide)]
        by_cases hz : k % 154 = 0
        · by_cases hk0 : k = 0
          · have hst : c6Stat k = 0 := by rw [c6Stat]; rw [if_pos hk0]
            rw [hst]
            rw [show ((0 : Nat) &&& 0xfb) % 256 &&& 0x03 = 0 by decide]
            rw [if_neg (by decide : ¬ ((0 : Nat) ≠ 0))]
            rw [show ((0 : Nat) &&& 0xfb) = 0 from by decide]
            rw [c6IOd_update]
            rw [c6IF_succ k (by omega)]
            rw [hppu]
            rw [decide_eq_false (show ¬ (k + 1) % 154 = 144 by omega)]
            conv_rhs => rw [c6Iod]
            rw [show c6Stat (k + 1) = 0 from by
              rw [c6Stat]; rw [if_neg (by omega), if_neg (by omega), if_pos (by omega)]]
          · have hst : c6Stat k = 6 := by rw [c6Stat]; rw [if_neg hk0, if_pos hz]
            rw [hst]
            rw [show ((6 : Nat) &&& 0xfb) % 256 &&& 0x03 = 2 by decide]
            rw [if_pos (by decide : (2 : Nat) ≠ 0)]
            rw [PPU.set_mode]
            try dsimp only
            rw [ByteVec.get_set_self _ _ _ (by rw [ByteVec.size_set, c6Iod, ByteVec.size_set, ByteVec.size_set, ByteVec.size_set, ByteVec.size_set]; decide)]
            rw [if_pos (by decide : (0 : Nat) ≠ 1)]
            rw [show ((6 : Nat) &&& 0xfb) % 256 = 2 by decide]
            rw [if_neg (by decide : ¬ ((2 : Nat) >>> (0 + 3) &&& 1 ≠ 0))]
            rw [ByteVec.set_set_self]
            rw [show ((2 : Nat) &&& 0xfc ||| 0 &&& 0x03) = 0 by decide]
            rw [c6IOd_update]
            rw [c6IF_succ k (by omega)]
            rw [hppu]
            rw [decide_eq_false (show ¬ (k + 1) % 154 = 144 by omega)]
            conv_rhs => rw [c6Iod]
            rw [show c6Stat (k + 1) = 0 from by
              rw [c6Stat]; rw [if_neg (by omega), if_neg (by omega), if_pos (by omega)]]
        · have hst : c6Stat k = 0 := by
            rw [c6Stat]; rw [if_neg (by omega), if_neg hz, if_pos (by omega)]
          rw [hst]
          rw [show ((0 : Nat) &&& 0xfb) % 256 &&& 0x03 = 0 by decide]
          rw [if_neg (by decide : ¬ ((0 : Nat) ≠ 0))]
          rw [show ((0 : Nat) &&& 0xfb) = 0 from by decide]
          rw [c6IOd_update]
          rw [c6IF_succ k (by omega)]
          rw [hppu]
          rw [decide_eq_false (show ¬ (k + 1) % 154 = 144 by omega)]
          conv_rhs => rw [c6Iod]
          rw [show c6Stat (k + 1) = 0 from by
            rw [c6Stat]; rw [if_neg (by omega), if_neg (by omega), if_pos (by omega)]]
      · -- old LY in 144..152: mode block untouched
        have hst : c6Stat k = 1 := by
          rw [c6Stat]; rw [if_neg (by omega), if_neg (by omega), if_neg (by omega)]
        rw [hst]
        rw [if_neg hly]
        rw [show ((1 : Nat) &&& 0xfb) = 1 from by decide]
        rw [c6IOd_update]
        rw [c6IF_succ k (by omega)]
        rw [hppu]
        rw [decide_eq_false (show ¬ (k + 1) % 154 = 144 by omega)]
        conv_rhs => rw [c6Iod]
        rw [show c6Stat (k + 1) = 1 from by
          rw [c6Stat]; rw [if_neg (by omega), if_neg (by omega), if_neg (by omega)]]

theorem c6_ci (k : Nat) : (c6GbK k).check_interrupts = none := by
  rw [GameBoy.check_interrupts]
  rw [MMU.readByte_ffff, MMU.readByte_ff0f]
  rw [show (c6GbK k).mmu.ie = 0 from rfl]
  rw [if_pos (by simp : (0 : Nat) &&& (c6GbK k).mmu.io.get 0x0f = 0)]

theorem c6_cpu (k : Nat) : (c6GbK k).step_cpu = (4, c6GbK k) := by
  rw [GameBoy.step_cpu]
  rw [if_pos (show (c6GbK k).halted = true from rfl)]
  dsimp only
  rw [c6_ci]
  rw [if_neg (by simp : ¬ (none : Option Nat).isSome = true)]

theorem c6IOd_get04 (k d : Nat) : (c6Iod k d).get 0x04 = d % 256 := by
  rw [c6Iod, ByteVec.get_set_ne _ _ _ _ (by decide), ByteVec.get_set_ne _ _ _ _ (by decide),
    ByteVec.get_set_ne _ _ _ _ (by decide), ByteVec.get_set_self _ _ _ (by decide)]

theorem c6IOd_setDiv (k d e : Nat) : (c6Iod k d).set 0x04 e = c6Iod k e := by
  rw [c6Iod, c6Iod]
  rw [ByteVec.set_comm _ 0x0f 0x04 _ _ (by decide)]
  rw [ByteVec.set_comm _ 0x41 0x04 _ _ (by decide)]
  rw [ByteVec.set_comm _ 0x44 0x04 _ _ (by decide)]
  rw [ByteVec.set_set_self]

theorem c6_timer (k : Nat) :
    Timer.step ⟨4 * k % 256, 0⟩ 4 (c6Io k)
    = (⟨4 * (k + 1) % 256, 0⟩, c6Iod k (4 * (k + 1) / 256 % 256)) := by
  rw [Timer.step]
  dsimp only
  by_cases hd : 4 * k % 256 + 4 ≥ 256
  · rw [if_pos hd]
    dsimp only
    rw [c6Io]
    rw [ByteVec.get_set_ne _ _ _ _ (by decide : (0x07:Nat) ≠ 0x04), c6IOd_get07]
    rw [if_neg (by decide : ¬ (0 : Nat) &&& 0x04 ≠ 0)]
    rw [c6IOd_get04]
    rw [c6IOd_setDiv]
    rw [show (4 * k / 256 % 256 % 256 + 1) % 256 = 4 * (k + 1) / 256 % 256 by omega]
    rw [show 4 * k % 256 + 4 - 256 = 4 * (k + 1) % 256 by omega]
  · rw [if_neg hd]
    dsimp only
    rw [c6Io, c6IOd_get07]
    rw [if_neg (by decide : ¬ (0 : Nat) &&& 0x04 ≠ 0)]
    rw [show 4 * k % 256 + 4 = 4 * (k + 1) % 256 by omega]
    rw [show 4 * k / 256 % 256 = 4 * (k + 1) / 256 % 256 by omega]

theorem c6_apu (k : Nat) (hk : 4 * k < 70224) : APU.step ⟨4 * k⟩ 4 = ⟨4 * (k + 1)⟩ := by
  rw [APU.step]
  dsimp only
  rw [Nat.mod_eq_of_lt (by omega)]
  rw [if_neg (by omega : ¬ 4 * k + 4 > 1 <<< 20)]
  rw [show 4 * k + 4 = 4 * (k + 1) by omega]

theorem c6_step (k : Nat) (hk : 4 * k < 70224) :
    GameBoy.frameBodyCount (c6State k) = c6State (k + 1) := by
  rw [c6State, c6State]
  rw [GameBoy.frameBodyCount]
  dsimp only
  rw [c6_cpu]
  dsimp only
  rw [show (c6GbK k).timer = (⟨4 * k % 256, 0⟩ : Timer) from rfl,
      show (c6GbK k).mmu = c6Mmu k from rfl,
      show (c6Mmu k).io = c6Io k from rfl]
  rw [c6_timer]
  dsimp only
  rw [show (c6GbK k).apu = (⟨4 * k⟩ : APU) from rfl]
  rw [c6_apu k hk]
  rw [show (c6GbK k).ppu = c6Ppu k from rfl]
  rw [show ({ c6Mmu k with io := c6Iod k (4 * (k + 1) / 256 % 256) } : MMU)
      = { MMU.new with io := c6Iod k (4 * (k + 1) / 256 % 256) } from rfl]
  rw [c6_ppu k _ (by omega)]
  dsimp only
  simp only [Prod.mk.injEq]
  refine ⟨rfl, by omega, ?_, ?_⟩
  · by_cases h : 144 ≤ k
    · rw [decide_eq_true h, decide_eq_true (show 144 ≤ k + 1 by omega)]
      rfl
    · rw [decide_eq_false h]
      by_cases h2 : (k + 1) % 154 = 144
      · rw [decide_eq_true h2, decide_eq_true (show 144 ≤ k + 1 by omega)]
        rfl
      · rw [decide_eq_false h2, decide_eq_false (show ¬ 144 ≤ k + 1 by omega)]
        rfl
  · by_cases hP : (k + 1) % 154 = 144
    · rw [decide_eq_true hP, if_pos rfl, c6Count, c6Count]
      omega
    · rw [decide_eq_false hP, if_neg (by simp), c6Count, c6Count]
      omega

theorem c6_state0 : c6State 0 = (c6Gb, 0, false, 0) := by
  have hio : c6Io 0 = MMU.resetIO := by
    rw [c6Io, c6Iod]
    rw [show (4 * 0 / 256 % 256 : Nat) = 0 by norm_num]
    try rw [show (0 % 154 : Nat) = 0 by norm_num]
    rw [show c6Stat 0 = 0 from by rw [c6Stat]; rw [if_pos rfl]]
    rw [show c6IF 0 = 0 from by rw [c6IF]; rw [if_neg (by omega)]]
    rw [ByteVec.set_of_get? _ _ _ (by decide)]
    rw [ByteVec.set_of_get? _ _ _ (by decide)]
    rw [ByteVec.set_of_get? _ _ _ (by decide)]
    rw [ByteVec.set_of_get? _ _ _ (by decide)]
  have hgb : c6GbK 0 = c6Gb := by
    rw [c6GbK, c6Mmu, hio]
    rfl
  rw [c6State, hgb]
  rfl

theorem c6_loop :
    ∀ (j k : Nat), k + j = 17556 →
      GameBoy.runFrameLoopCount (j + 1) (c6State k) = some (c6State 17556) := by
  intro j
  induction j with
  | zero =>
    intro k hk
    have hk17 : k = 17556 := by omega
    subst hk17
    rw [GameBoy.runFrameLoopCount]
    rw [if_neg (by rw [c6State]; dsimp only; omega)]
  | succ j ih =>
    intro k hk
    rw [GameBoy.runFrameLoopCount]
    have hlt : (c6State k).2.1 < 70224 := by rw [c6State]; dsimp only; omega
    rw [if_pos hlt]
    rw [c6_step k (by rw [c6State] at hlt; exact hlt)]
    exact ih (k + 1) (by omega)

theorem c6_runcount :
    GameBoy.runFrameLoopCount 17557 (c6Gb, 0, false, 0) = some (c6State 17556) := by
  have h := c6_loop 17556 0 (by omega)
  rw [c6_state0] at h
  exact h

/-- Dropping the ghost counter from `frameBodyCount` gives `frameBody`. -/
theorem frameBodyCount_fst (s : GameBoy × Nat × Bool × Nat) :
    GameBoy.frameBody (s.1, s.2.1, s.2.2.1)
    = ((GameBoy.frameBodyCount s).1, (GameBoy.frameBodyCount s).2.1,
        (GameBoy.frameBodyCount s).2.2.1) := by
  obtain ⟨gb, fc, rd, cnt⟩ := s
  rw [GameBoy.frameBody, GameBoy.frameBodyCount]

theorem runFrameLoopCount_fst :
    ∀ (fuel : Nat) (s : GameBoy × Nat × Bool × Nat),
      GameBoy.runFrameLoop fuel (s.1, s.2.1, s.2.2.1)
      = (GameBoy.runFrameLoopCount fuel s).map (fun t => (t.1, t.2.1, t.2.2.1)) := by
  intro fuel
  induction fuel with
  | zero => intro s; rfl
  | succ n ih =>
    intro s
    rw [GameBoy.runFrameLoop, GameBoy.runFrameLoopCount]
    by_cases hc : s.2.1 < 70224
    · rw [if_pos hc, if_pos hc]
      rw [frameBodyCount_fst]
      exact ih (GameBoy.frameBodyCount s)
    · rw [if_neg hc, if_neg hc]
      rfl

theorem c6_runframe : c6Gb.run_frame 17557 = some ((c6State 17556).1, true) := by
  rw [GameBoy.run_frame, if_neg (by decide : ¬ c6Gb.running = false)]
  have h := runFrameLoopCount_fst 17557 (c6Gb, 0, false, 0)
  rw [c6_runcount] at h
  rw [show ((c6Gb, 0, false, 0) : GameBoy × Nat × Bool × Nat).1 = c6Gb from rfl] at h
  rw [h]
  rw [c6State]
  rfl

/-- The trailing mode-update block never signals a completed frame. -/
theorem stepModeUpdate_fst (p : PPU) (m : MMU) (ly : Nat) :
    (PPU.stepModeUpdate p m ly).1 = false := by
  rw [PPU.stepModeUpdate]
  split_ifs <;> rfl

/-- Setting bit 0 in a byte keeps bit 0 set after the `% 256`. -/
theorem byteOrBit1 : ∀ x < 256, ((x ||| 0x01) % 256) &&& 0x01 = 0x01 := by decide

theorem set_ly_io_size (m : MMU) (v : Nat) : (PPU.set_ly m v).io.size = m.io.size := by
  rw [PPU.set_ly]
  try dsimp only
  rw [ByteVec.size_set]

theorem request_interrupt_io_size (m : MMU) (i : Nat) :
    (PPU.request_interrupt m i).io.size = m.io.size := by
  rw [PPU.request_interrupt]
  try dsimp only
  rw [MMU.writeByte_ff0f]
  try dsimp only
  rw [ByteVec.size_set]

theorem check_lyc_io_size (m : MMU) : (PPU.check_lyc m).io.size = m.io.size := by
  rw [PPU.check_lyc]
  try dsimp only
  split_ifs
  all_goals try rw [request_interrupt_io_size]
  all_goals try dsimp only
  all_goals rw [ByteVec.size_set]

theorem set_mode_io_size (m : MMU) (mode : Nat) :
    (PPU.set_mode m mode).io.size = m.io.size := by
  rw [PPU.set_mode]
  try dsimp only
  split_ifs
  all_goals try rw [request_interrupt_io_size]
  all_goals try dsimp only
  all_goals rw [ByteVec.size_set]

/-- Requesting the V-blank interrupt leaves IF bit 0 set. -/
theorem request_interrupt0_get0f (m : MMU) (h : 0x0f < m.io.size) :
    (PPU.request_interrupt m 0).io.get 0x0f &&& 0x01 = 0x01 := by
  rw [PPU.request_interrupt]
  try dsimp only
  rw [MMU.readByte_ff0f, MMU.writeByte_ff0f]
  try dsimp only
  rw [ByteVec.get_set_self _ _ _ h]
  exact byteOrBit1 _ (ByteVec.get_lt_256 _ _)

/-- Components of `frameBodyCount`: the ready flag accumulates the
per-step PPU signal, the counter counts the signals. -/
theorem frameBodyCount_ready_count (s : GameBoy × Nat × Bool × Nat) :
    ∃ b : Bool, (GameBoy.frameBodyCount s).2.2.1 = (s.2.2.1 || b)
      ∧ (GameBoy.frameBodyCount s).2.2.2 = s.2.2.2 + (if b = true then 1 else 0) := by
  obtain ⟨gb, fc, rd, cnt⟩ := s
  rw [GameBoy.frameBodyCount]
  dsimp only
  rcases hs : gb.step_cpu with ⟨cc, gb1⟩
  dsimp only
  rcases ht : gb1.timer.step cc gb1.mmu.io with ⟨t, io⟩
  dsimp only
  rcases hp : GameBoy.ppu _ |>.step _ cc with ⟨b, p2, m2⟩
  dsimp only
  exact ⟨b, rfl, rfl⟩

/-- Ghost-loop invariant: the final ready flag is set exactly when the
V-blank counter moved (or the flag was set on entry). -/
theorem runFrameLoopCount_ready :
    ∀ (fuel : Nat) (s r : GameBoy × Nat × Bool × Nat),
      GameBoy.runFrameLoopCount fuel s = some r →
      s.2.2.2 ≤ r.2.2.2 ∧ (r.2.2.1 = true ↔ (s.2.2.1 = true ∨ s.2.2.2 < r.2.2.2)) := by
  intro fuel
  induction fuel with
  | zero => intro s r h; exact absurd h (by simp [GameBoy.runFrameLoopCount])
  | succ n ih =>
    intro s r h
    rw [GameBoy.runFrameLoopCount] at h
    by_cases hc : s.2.1 < 70224
    · rw [if_pos hc] at h
      have hmain := ih _ _ h
      obtain ⟨b, hb1, hb2⟩ := frameBodyCount_ready_count s
      rw [hb1, hb2] at hmain
      cases b
      · rw [Bool.or_false] at hmain
        rw [if_neg (by simp)] at hmain
        rw [Nat.add_zero] at hmain
        exact hmain
      · rw [Bool.or_true] at hmain
        rw [if_pos rfl] at hmain
        obtain ⟨hle, hiff⟩ := hmain
        refine ⟨by omega, ?_⟩
        rw [hiff.mpr (Or.inl rfl)]
        simp only [true_iff]
        exact Or.inr (by omega)
    · rw [if_neg hc] at h
      injection h with h2
      subst h2
      exact ⟨Nat.le_refl _, by simp⟩

/-- C6 (amended).  With the LCD pipeline enabled, a PPU step signals a
frame exactly when the scanline budget is crossed into line 144; every
such signal raises IF bit 0; across one `run_frame` call the V-blank
request can fire several times, and `run_frame` returns true exactly
when it fired at least once. -/
theorem claim_C6_amended :
    (∀ (p : PPU) (m : MMU) (cycles : Nat), m.io.get 0x40 &&& 0x80 ≠ 0 →
        ((PPU.step p m cycles).1 = true
          ↔ (456 ≤ p.scanline_counter + cycles ∧ (PPU.get_ly m + 1) % 154 = 144)))
    ∧ (∀ (p : PPU) (m : MMU) (cycles : Nat), m.io.size = 0x80 →
        (PPU.step p m cycles).1 = true →
        (PPU.step p m cycles).2.2.io.get 0x0f &&& 0x01 = 0x01)
    ∧ (∀ (fuel : Nat) (gb : GameBoy) (r : GameBoy × Nat × Bool × Nat),
        gb.running = true →
        GameBoy.runFrameLoopCount fuel (gb, 0, false, 0) = some r →
        gb.run_frame fuel = some (r.1, r.2.2.1) ∧ (r.2.2.1 = true ↔ 1 ≤ r.2.2.2)) := by
  refine ⟨?_, ?_, ?_⟩
  · intro p m cycles hlcd
    rw [PPU.step]
    try dsimp only
    rw [if_neg hlcd]
    try dsimp only
    by_cases hsc : 456 ≤ p.scanline_counter + cycles
    · rw [if_pos hsc]
      try dsimp only
      by_cases hly : (PPU.get_ly m + 1) % 154 = 144
      · rw [if_pos hly]
        exact ⟨fun _ => ⟨hsc, hly⟩, fun _ => rfl⟩
      · rw [if_neg hly]
        try dsimp only
        rw [stepModeUpdate_fst]
        exact iff_of_false (by simp) (fun hh => hly hh.2)
    · rw [if_neg hsc]
      rw [stepModeUpdate_fst]
      exact iff_of_false (by simp) (fun hh => hsc hh.1)
  · intro p m cycles hio hready
    rw [PPU.step] at hready ⊢
    set m1 := PPU.check_lyc (PPU.set_ly m ((PPU.get_ly m + 1) % 154)) with hm1
    by_cases hlcd : m.io.get 0x40 &&& 0x80 = 0
    · rw [if_pos hlcd] at hready
      exact absurd hready (by simp)
    · rw [if_neg hlcd] at hready ⊢
      by_cases hsc : 456 ≤ p.scanline_counter + cycles
      · rw [if_pos hsc] at hready ⊢
        by_cases hly : (PPU.get_ly m + 1) % 154 = 144
        · rw [if_pos hly] at hready ⊢
          try dsimp only
          apply request_interrupt0_get0f
          rw [set_mode_io_size, check_lyc_io_size, set_ly_io_size, hio]
          decide
        · rw [if_neg hly] at hready
          try dsimp only at hready
          rw [stepModeUpdate_fst] at hready
          exact absurd hready (by simp)
      · rw [if_neg hsc] at hready
        rw [stepModeUpdate_fst] at hready
        exact absurd hready (by simp)
  · intro fuel gb r hrun h
    constructor
    · rw [GameBoy.run_frame, if_neg (by simp [hrun])]
      have hp := runFrameLoopCount_fst fuel (gb, 0, false, 0)
      rw [h] at hp
      rw [show ((gb, 0, false, 0) : GameBoy × Nat × Bool × Nat).1 = gb from rfl] at hp
      rw [hp]
      rfl
    · have hr := runFrameLoopCount_ready fuel (gb, 0, false, 0) r h
      obtain ⟨hle, hiff⟩ := hr
      have h0 : ((gb, 0, false, 0) : GameBoy × Nat × Bool × Nat).2.2.2 = 0 := rfl
      have hf : ((gb, 0, false, 0) : GameBoy × Nat × Bool × Nat).2.2.1 = false := rfl
      rw [h0, hf] at hiff
      rw [hiff]
      constructor
      · rintro (hfalse | hlt)
        · exact absurd hfalse (by simp)
        · omega
      · intro h1
        exact Or.inr (by omega)

theorem claim_C6_witness :
    (PPU.step PPU.new { MMU.new with io := MMU.resetIO.set 0x44 143 } 456).1 = true
    ∧ (PPU.step PPU.new { MMU.new with io := MMU.resetIO.set 0x44 143 }
        456).2.2.io.get 0x0f &&& 0x01 = 0x01 := by
  have h1 := (claim_C6_amended.1 PPU.new { MMU.new with io := MMU.resetIO.set 0x44 143 }
    456 (by decide)).mpr (by constructor; · decide
                             · decide)
  exact ⟨h1, claim_C6_amended.2.1 PPU.new _ 456 (by decide) h1⟩

/-- C6 counterexample: a running, halted machine with LCD enabled and a
huge scanline counter completes one `run_frame` with the V-blank
request raised 114 times, not exactly once. -/
theorem claim_C6_cex :
    GameBoy.runFrameLoopCount 17557 (c6Gb, 0, false, 0) = some (c6State 17556)
    ∧ (c6State 17556).2.2.2 = 114
    ∧ c6Gb.run_frame 17557 = some ((c6State 17556).1, true)
    ∧ c6Gb.mmu.io.get 0x40 &&& 0x80 ≠ 0 :=
  ⟨c6_runcount, by rw [c6State]; rfl, c6_runframe, by decide⟩

end C6Proofs
